import Mathlib

/-!
# Verification of the music_api resource-collection layer

A shallow embedding, in Lean 4, of the validation / referential-integrity /
pagination layer of the `music_api` repository (Express + MongoDB route
modules: `src/routes/artists.js` — which contains both the artists router and
the playlists router — `src/routes/albums.js`, and the songs router in
`src/unnamed/part_006`).

Modelling conventions, stated once:

* JavaScript values reaching the handlers are modelled by `JSVal`.  Numbers
  are restricted to integers (`Int`) plus the distinguished `NaN`: every
  numeric field of this API is produced by `parseInt`, which only ever yields
  an integer or `NaN`, so the restriction is faithful for all values the
  routes construct.  The JS coercions actually exercised by the routes
  (`ToBoolean` truthiness, `ToString`, `ToNumber`, `parseInt`) are modelled
  below.
* `ObjectId.isValid` from the mongodb driver accepts a 24-character hex
  string (case-insensitive), any 12-character string, or a number; string ids
  are canonicalised to lower-case hex by `ObjectId.prototype.toString`.
* `new RegExp(p, 'i')` is modelled for the pattern subset the routes build:
  literal characters, the `.` wildcard, `\`-escapes, and an optional leading
  `^` / trailing `$` anchor.  Other regex metacharacters are treated as
  literals; theorems that quantify over names either restrict to this subset
  or are instantiated at concrete patterns inside it.
* `new URL(...)` (the `isValidUrl` helper of every route module) and
  `new Date(string)` parsing are external to the modelled layer and are
  passed to the definitions as explicit boolean/partial-function oracles.
* Each MongoDB collection is a list of documents in natural (insertion)
  order; `find` preserves that order, `insertOne` appends, and `updateOne` /
  `deleteOne` affect the first matching document.
-/

namespace MusicApi

/-- A JavaScript value as it appears in request bodies, query strings and
stored documents.  `vNaN` is JavaScript's `NaN`; `vObj` stands for any plain
(non-array) object, whose internals none of the modelled code inspects. -/
inductive JSVal where
  | undef
  | vNull
  | vBool (b : Bool)
  | vInt (n : Int)
  | vNaN
  | vStr (s : String)
  | vArr (elems : List JSVal)
  | vObj

/-- JavaScript `ToBoolean`: `undefined`, `null`, `NaN`, `false`, `0` and the
empty string are falsy; everything else (including `[]` and `{}`) is truthy. -/
def truthy : JSVal → Bool
  | .undef => false
  | .vNull => false
  | .vBool b => b
  | .vInt n => n != 0
  | .vNaN => false
  | .vStr s => !s.isEmpty
  | .vArr _ => true
  | .vObj => true

/-- ASCII lower-casing of one character (what both JavaScript's
`toLowerCase` and the regex `i` flag do on the ASCII range; defined on
lists/characters so that proofs can evaluate it). -/
def lowerChar (c : Char) : Char :=
  if 'A' ≤ c && c ≤ 'Z' then Char.ofNat (c.toNat + 32) else c

/-- Lower-case a whole string. -/
def lowerStr (s : String) : String := ⟨s.toList.map lowerChar⟩

/-- JavaScript `String.prototype.trim`: strip leading and trailing
whitespace. -/
def jsTrim (s : String) : String :=
  ⟨((s.toList.dropWhile Char.isWhitespace).reverse.dropWhile Char.isWhitespace).reverse⟩

/-- Lexicographic `<` on character lists (string comparison by code
point). -/
def listLtChar : List Char → List Char → Bool
  | x :: xs, y :: ys => x < y || (x == y && listLtChar xs ys)
  | [], [] => false
  | [], _ => true
  | _, [] => false

mutual

/-- JavaScript `ToString` on the modelled values (arrays join their elements
with `,`, rendering `null`/`undefined` elements as the empty string). -/
def jsToString : JSVal → String
  | .undef => "undefined"
  | .vNull => "null"
  | .vBool b => if b then "true" else "false"
  | .vInt n => toString n
  | .vNaN => "NaN"
  | .vStr s => s
  | .vArr xs => String.intercalate "," (jsToStringList xs)
  | .vObj => "[object Object]"

/-- Elementwise `ToString` used when an array is converted to a string. -/
def jsToStringList : List JSVal → List String
  | [] => []
  | .undef :: rest => "" :: jsToStringList rest
  | .vNull :: rest => "" :: jsToStringList rest
  | x :: rest => jsToString x :: jsToStringList rest

end

/-- Decimal digit value. -/
def digitVal (c : Char) : Option Nat :=
  if c.isDigit then some (c.toNat - '0'.toNat) else none

/-- Hexadecimal digit value. -/
def hexVal (c : Char) : Option Nat :=
  let n := c.toNat
  if 48 ≤ n && n ≤ 57 then some (n - 48)
  else if 97 ≤ n && n ≤ 102 then some (n - 87)
  else if 65 ≤ n && n ≤ 70 then some (n - 55)
  else none

/-- Accumulate the longest leading run of digits; `none` when no digit was
consumed at all (JavaScript's `NaN` outcome for `parseInt`). -/
def leadingDigits (dv : Char → Option Nat) (base : Nat) :
    List Char → Nat → Bool → Option Nat
  | [], acc, seen => if seen then some acc else none
  | c :: rest, acc, seen =>
    match dv c with
    | some d => leadingDigits dv base rest (acc * base + d) true
    | none => if seen then some acc else none

/-- All characters must be digits and there must be at least one
(JavaScript's `Number(...)` on a trimmed non-empty string). -/
def allDigits (dv : Char → Option Nat) (base : Nat) (cs : List Char) : Option Nat :=
  match cs with
  | [] => none
  | _ =>
    cs.foldl (fun acc c =>
      match acc, dv c with
      | some a, some d => some (a * base + d)
      | _, _ => none) (some 0)

/-- JavaScript `parseInt` on a string: skip leading whitespace, optional
sign, optional `0x`/`0X` prefix, then the longest digit run; `none` is `NaN`.
(Fractional digits are never consumed by `parseInt`, so the integer-only
restriction loses nothing here.) -/
def parseIntStr (s : String) : Option Int :=
  let cs := s.toList.dropWhile (fun c => c.isWhitespace)
  let signAndRest : Int × List Char :=
    match cs with
    | '-' :: rest => (-1, rest)
    | '+' :: rest => (1, rest)
    | _ => (1, cs)
  let sign := signAndRest.1
  let body := signAndRest.2
  match body with
  | '0' :: x :: rest =>
    if x == 'x' || x == 'X' then
      (leadingDigits hexVal 16 rest 0 false).map (fun n => sign * (n : Int))
    else
      (leadingDigits digitVal 10 ('0' :: x :: rest) 0 false).map (fun n => sign * (n : Int))
  | _ => (leadingDigits digitVal 10 body 0 false).map (fun n => sign * (n : Int))

/-- JavaScript `Number` on a string (`ToNumber` of a string): empty after
trimming is `0`, a hex literal or an optionally signed digit run is its
value, anything else is `NaN` (`none`).  Fractional literals fall outside the
integer-only embedding and are mapped to `NaN`; no route feeds fractional
strings to a numeric comparison. -/
def strToNumber (s : String) : Option Int :=
  let t := jsTrim s
  if t.isEmpty then some 0
  else
    match t.toList with
    | '0' :: 'x' :: rest => (allDigits hexVal 16 rest).map (fun n => (n : Int))
    | '0' :: 'X' :: rest => (allDigits hexVal 16 rest).map (fun n => (n : Int))
    | '-' :: rest => (allDigits digitVal 10 rest).map (fun n => -(n : Int))
    | '+' :: rest => (allDigits digitVal 10 rest).map (fun n => (n : Int))
    | cs => (allDigits digitVal 10 cs).map (fun n => (n : Int))

/-- JavaScript `ToNumber`; `none` is `NaN`. -/
def jsToNumber : JSVal → Option Int
  | .undef => none
  | .vNull => some 0
  | .vBool b => some (if b then 1 else 0)
  | .vInt n => some n
  | .vNaN => none
  | .vStr s => strToNumber s
  | .vArr xs => strToNumber (jsToString (.vArr xs))
  | .vObj => none

/-- JavaScript `parseInt(v)`: `ToString` then string `parseInt`. -/
def jsParseInt (v : JSVal) : JSVal :=
  match parseIntStr (jsToString v) with
  | some n => .vInt n
  | none => .vNaN

/-- `parseInt(q) || d` as the route modules use it for `page` and `limit`:
an absent parameter, an unparseable one, or a parse result of `0` all fall
back to the default. -/
def parseIntOr (q : Option String) (d : Int) : Int :=
  match q with
  | none => d
  | some s =>
    match parseIntStr s with
    | none => d
    | some n => if n == 0 then d else n

/-- `isNaN(v)` (which coerces with `ToNumber`). -/
def jsIsNaN (v : JSVal) : Bool := (jsToNumber v).isNone

/-- `v < k` for a numeric literal `k` (JS relational comparison after
`ToNumber`; any comparison with `NaN` is false). -/
def jsLtNum (v : JSVal) (k : Int) : Bool :=
  match jsToNumber v with
  | some n => n < k
  | none => false

/-- `v > k` for a numeric literal `k`. -/
def jsGtNum (v : JSVal) (k : Int) : Bool :=
  match jsToNumber v with
  | some n => k < n
  | none => false

/-- Hex digit test (`Char.isHexDigit` does not exist in this toolchain). -/
def isHexDig (c : Char) : Bool :=
  c.isDigit || ('a' ≤ c && c ≤ 'f') || ('A' ≤ c && c ≤ 'F')

/-- `ObjectId.isValid` on a string: a 24-character hex string
(case-insensitive) or any 12-character string. -/
def isValidObjectIdStr (s : String) : Bool :=
  (s.length == 24 && s.toList.all isHexDig) || s.length == 12

/-- `ObjectId.isValid` on an arbitrary value: strings as above, numbers are
accepted (interpreted as a timestamp), everything else is rejected. -/
def jsObjectIdIsValid : JSVal → Bool
  | .vStr s => isValidObjectIdStr s
  | .vInt _ => true
  | _ => false

/-- `new ObjectId(s).toString()` for a well-formed hex string: the driver
canonicalises to lower-case hex. -/
def oidCanon (s : String) : String := lowerStr s

/-- Equality of the ObjectIds denoted by two hex strings (byte equality of
the underlying 12 bytes, i.e. case-insensitive equality of the hex digits).
This is the equality MongoDB applies when an `_id` query value is an
`ObjectId` built from a string. -/
def oidEq (a b : String) : Bool := lowerStr a == lowerStr b

/-! ### The regular-expression subset built by the routes

Every `RegExp` in the modelled code is constructed from user/candidate text
with the `'i'` flag, optionally wrapped as `'^' + text + '$'`. -/

/-- One compiled pattern token. -/
inductive RTok where
  | rAny
  | rLit (c : Char)
deriving Repr, DecidableEq

/-- Compile a pattern body: `\c` escapes to a literal, `.` is the wildcard,
every other character is a literal. -/
def regexTokens : List Char → List RTok
  | [] => []
  | '\\' :: c :: rest => .rLit c :: regexTokens rest
  | '\\' :: [] => [.rLit '\\']
  | '.' :: rest => .rAny :: regexTokens rest
  | c :: rest => .rLit c :: regexTokens rest

/-- Case-insensitive token-versus-character match; the wildcard does not
match line terminators. -/
def rtokMatches (t : RTok) (c : Char) : Bool :=
  match t with
  | .rAny => c != '\n' && c != '\r'
  | .rLit l => lowerChar l == lowerChar c

/-- Full (both ends anchored) match. -/
def tokensMatch : List RTok → List Char → Bool
  | [], [] => true
  | [], _ :: _ => false
  | _ :: _, [] => false
  | t :: ts, c :: cs => rtokMatches t c && tokensMatch ts cs

/-- Match a prefix of the text (start anchored only). -/
def tokensAtFront : List RTok → List Char → Bool
  | [], _ => true
  | _ :: _, [] => false
  | t :: ts, c :: cs => rtokMatches t c && tokensAtFront ts cs

/-- Match somewhere in the text (no anchor). -/
def tokensSearch (ts : List RTok) : List Char → Bool
  | [] => tokensAtFront ts []
  | c :: cs => tokensAtFront ts (c :: cs) || tokensSearch ts cs

/-- Match a suffix of the text (end anchored only). -/
def tokensAtEnd (ts : List RTok) : List Char → Bool
  | [] => tokensMatch ts []
  | c :: cs => tokensMatch ts (c :: cs) || tokensAtEnd ts cs

/-- `new RegExp(pat, 'i').test(s)` for the pattern subset described above:
an optional leading `^`, an optional unescaped trailing `$`, and a body of
literals, escapes and `.` wildcards. -/
def jsRegexTestCI (pat s : String) : Bool :=
  let cs := pat.toList
  let startAnch := cs.head? == some '^'
  let cs1 := if startAnch then cs.tail else cs
  let endAnch :=
    cs1.getLast? == some '$' &&
      !(cs1.length ≥ 2 && cs1.get? (cs1.length - 2) == some '\\')
  let body := if endAnch then cs1.dropLast else cs1
  let ts := regexTokens body
  let target := s.toList
  match startAnch, endAnch with
  | true, true => tokensMatch ts target
  | true, false => tokensAtFront ts target
  | false, true => tokensAtEnd ts target
  | false, false => tokensSearch ts target

/-- A MongoDB `$regex` condition applied to a stored field value: it matches
a string field directly and an array field elementwise; any other BSON type
never matches a regex. -/
def regexMatchesVal (pat : String) : JSVal → Bool
  | .vStr s => jsRegexTestCI pat s
  | .vArr xs => xs.any (fun v => match v with | .vStr s => jsRegexTestCI pat s | _ => false)
  | _ => false

/-! ### Sorting (the optional `sortBy`/`sortOrder` parameters)

MongoDB sorts by the BSON type/value order; the order of ties is
unspecified by the server, and the model fixes it with a stable merge sort,
which no claim depends on. -/

/-- BSON type rank used by MongoDB's sort comparison (restricted to the
types the model can store). -/
def bsonRank : JSVal → Nat
  | .undef => 0
  | .vNull => 1
  | .vNaN => 2
  | .vInt _ => 2
  | .vStr _ => 3
  | .vObj => 4
  | .vArr _ => 5
  | .vBool _ => 6

/-- BSON `≤` on stored values (NaN sorts below all numbers). -/
def bsonLe (a b : JSVal) : Bool :=
  match a, b with
  | .vInt m, .vInt n => m ≤ n
  | .vNaN, .vInt _ => true
  | .vInt _, .vNaN => false
  | .vStr s, .vStr t => s == t || listLtChar s.toList t.toList
  | .vBool x, .vBool y => !x || y
  | x, y => bsonRank x ≤ bsonRank y

/-- `cursor.sort({field: order})`: ascending by BSON order, or the reverse
comparison for `order = -1`. -/
def mongoSort {δ : Type} (field : δ → JSVal) (order : Int) (docs : List δ) : List δ :=
  if order == -1 then docs.mergeSort (fun a b => bsonLe (field b) (field a))
  else docs.mergeSort (fun a b => bsonLe (field a) (field b))

/-! ### The pagination block

Each of the four listing handlers repeats, verbatim, the block

```js
const page = parseInt(req.query.page) || 1;
const limit = parseInt(req.query.limit) || 10;
if (limit > 100) { return res.status(400).json({ error: 'Invalid limit', ... }); }
const skip = (page - 1) * limit;
options.skip = skip; options.limit = limit;
const docs  = await collection.find(query, options).toArray();
const total = await collection.countDocuments(query);
res.status(200).json({ docs, pagination: {
  currentPage: page,
  totalPages: Math.ceil(total / limit),
  totalItems: total,
  hasNext: page * limit < total,
  hasPrev: page > 1 } });
```

which `listCore` models, applied to the (already filtered and sorted) list
of matching documents. -/

/-- The `pagination` object of a listing response. -/
structure Pagin where
  currentPage : Int
  totalPages : Int
  totalItems : Int
  hasNext : Bool
  hasPrev : Bool
deriving Repr, DecidableEq

/-- Outcome of a listing request. -/
inductive ListResp (α : Type) where
  | ok (items : List α) (pagin : Pagin)
  | invalidLimit
  | serverError

/-- HTTP status of a listing outcome (`invalidLimit` is the 400
`{error: "Invalid limit"}` response; `serverError` is the catch-all 500,
reached when the driver rejects a negative `skip`). -/
def ListResp.status {α : Type} : ListResp α → Nat
  | .ok _ _ => 200
  | .invalidLimit => 400
  | .serverError => 500

/-- `Math.ceil(a / b)` on integer operands, as the handlers compute
`totalPages` (`b = 0` is unreachable because `limit` always defaults). -/
def ceilDivJS (a b : Int) : Int := if b == 0 then 0 else -((-a).fdiv b)

/-- `find` with non-negative `skip` and a `limit` option: `limit = 0` means
unlimited, a negative limit returns at most `|limit|` documents. -/
def mongoSlice {α : Type} (docs : List α) (skip : Nat) (limit : Int) : List α :=
  let rest := docs.drop skip
  if limit == 0 then rest else rest.take limit.natAbs

/-- The shared pagination block over the matching documents and the already
parsed-and-defaulted `page` and `limit`. -/
def listCore {α : Type} (matching : List α) (page limit : Int) : ListResp α :=
  if 100 < limit then .invalidLimit
  else
    let skip := (page - 1) * limit
    if skip < 0 then .serverError
    else
      let totalCount : Int := matching.length
      .ok (mongoSlice matching skip.toNat limit)
        { currentPage := page
          totalPages := ceilDivJS totalCount limit
          totalItems := totalCount
          hasNext := decide (page * limit < totalCount)
          hasPrev := decide (1 < page) }

/-- The client-side iteration of the pagination invariant: fetch page `p`,
and continue with page `p + 1` exactly while the `hasNext` flag of the
response — `p * limit < totalItems` — is true.  Pages are the slices
`listCore` serves (see `listing_pagination` below for the agreement). -/
def pageSweep {α : Type} (matching : List α) (k p : Nat) : List (List α) :=
  if h : 0 < k ∧ p * k < matching.length then
    (matching.drop ((p - 1) * k)).take k :: pageSweep matching k (p + 1)
  else
    [(matching.drop ((p - 1) * k)).take k]
termination_by matching.length - p * k
decreasing_by
  obtain ⟨hk, hlt⟩ := h
  have : p * k + k ≤ p * k + p * k + k := by omega
  simp only [Nat.succ_mul]
  omega

/-- The lengths of the pages visited by the sweep starting at page `p ≥ 1`
sum to the documents not skipped by the pages before `p`. -/
theorem pageSweep_len_sum {α : Type} (m : List α) (k p : Nat) :
    0 < k → 1 ≤ p →
    ((pageSweep m k p).map List.length).sum = m.length - (p - 1) * k := by
  intro hk
  refine pageSweep.induct m k
    (fun q => 1 ≤ q → ((pageSweep m k q).map List.length).sum = m.length - (q - 1) * k)
    ?_ ?_ p
  case _ =>
    intro p h ih hp
    rw [pageSweep, dif_pos h]
    have hrec := ih (by omega)
    simp only [List.map_cons, List.sum_cons, hrec, List.length_take, List.length_drop]
    have h1 : (p - 1) * k + k = p * k := by
      cases p with
      | zero => omega
      | succ q => simp [Nat.succ_mul, Nat.succ_sub_one]
    have h2 : p * k < m.length := h.2
    have h3 : (p + 1 - 1) * k = p * k := by norm_num
    omega
  case _ =>
    intro p h hp
    rw [pageSweep, dif_neg h]
    simp only [List.map_cons, List.map_nil, List.sum_cons, List.sum_nil,
      List.length_take, List.length_drop]
    have h1 : (p - 1) * k + k = p * k := by
      cases p with
      | zero => omega
      | succ q => simp [Nat.succ_mul, Nat.succ_sub_one]
    have h2 : ¬(0 < k ∧ p * k < m.length) := h
    omega

/-- `ceilDivJS n L` really is `⌈n / L⌉` for a non-negative numerator and a
positive denominator: characterised by its two defining inequalities. -/
theorem ceilDivJS_bounds (n : Nat) (L : Int) (hL : 1 ≤ L) :
    (n : Int) ≤ ceilDivJS n L * L ∧ (ceilDivJS n L - 1) * L < n := by
  have hL0 : 0 < L := hL
  have hLne : L ≠ 0 := by omega
  have hfd : ((-(n : Int)).fdiv L) = (-(n : Int)) / L :=
    Int.fdiv_eq_ediv _ (by omega)
  have hsum : L * ((-(n : Int)) / L) + (-(n : Int)) % L = -(n : Int) :=
    Int.ediv_add_emod _ _
  have hr0 : 0 ≤ (-(n : Int)) % L := Int.emod_nonneg _ hLne
  have hrL : (-(n : Int)) % L < L := Int.emod_lt_of_pos _ hL0
  have hceil : ceilDivJS n L = -((-(n : Int)) / L) := by
    simp [ceilDivJS, hLne, hfd]
  constructor
  · rw [hceil]
    nlinarith [hsum, hr0]
  · rw [hceil]
    nlinarith [hsum, hrL]

/-! ### Sanitisation helpers shared by the create/update handlers -/

/-- `v?.toString().trim()`: optional chaining yields `undefined` on
`undefined`/`null`, otherwise `ToString` followed by `trim`. -/
def optToStringTrim : JSVal → JSVal
  | .undef => .undef
  | .vNull => .undef
  | v => .vStr (jsTrim (jsToString v))

/-- `v?.toString().trim() || ''`. -/
def optToStringTrimOrEmpty (v : JSVal) : JSVal :=
  match optToStringTrim v with
  | .vStr s => .vStr s
  | _ => .vStr ""

/-- `v || ''`. -/
def jsOrEmptyStr (v : JSVal) : JSVal := if truthy v then v else .vStr ""

/-- `v || {}`. -/
def jsOrEmptyObj (v : JSVal) : JSVal := if truthy v then v else .vObj

/-- `xs.map(m => m?.toString().trim()).filter(m => m)`: the member/tag/
featured-artist array sanitiser. -/
def sanitizeStrList : List JSVal → List JSVal
  | [] => []
  | .undef :: rest => sanitizeStrList rest
  | .vNull :: rest => sanitizeStrList rest
  | v :: rest =>
    let s := jsTrim (jsToString v)
    if s.isEmpty then sanitizeStrList rest else .vStr s :: sanitizeStrList rest

/-! ### Validator building blocks

Each block is the exact translation of one `if`/`else if` chain of the
`validateArtist` / `validateAlbum` / `validateSong` / `validatePlaylist`
helpers; a validator is the concatenation of its blocks in source order. -/

/-- `!v || typeof v !== 'string' || v.trim().length === 0` pushes `reqMsg`,
else `v.trim().length > maxLen` pushes `lenMsg`. -/
def strFieldErrs (v : JSVal) (maxLen : Nat) (reqMsg lenMsg : String) : List String :=
  match v with
  | .vStr s =>
    if (jsTrim s).isEmpty then [reqMsg]
    else if maxLen < (jsTrim s).length then [lenMsg]
    else []
  | _ => [reqMsg]

/-- `!v || !ObjectId.isValid(v)` pushes `msg` (the `artist_id` / `album_id`
reference-shape rule). -/
def refIdErrs (v : JSVal) (msg : String) : List String :=
  if !(truthy v) || !(jsObjectIdIsValid v) then [msg] else []

/-- `!v || isNaN(v) || v < 1` pushes `loMsg`, else `v > hi` pushes `hiMsg`
(track_count / duration rules). -/
def numRangeErrs (v : JSVal) (hi : Int) (loMsg hiMsg : String) : List String :=
  if !(truthy v) || jsIsNaN v || jsLtNum v 1 then [loMsg]
  else if jsGtNum v hi then [hiMsg]
  else []

/-- Optional string field with a maximum length:
`v && (typeof v !== 'string' || v.length > maxLen)` pushes `msg`. -/
def optStrMaxErrs (v : JSVal) (maxLen : Nat) (msg : String) : List String :=
  if truthy v then
    match v with
    | .vStr s => if maxLen < s.length then [msg] else []
    | _ => [msg]
  else []

/-- Optional URL field: `v && (typeof v !== 'string' || !isValidUrl(v))`
pushes `msg`.  `isValidUrl` wraps `new URL(...)` and is an oracle here. -/
def optUrlErrs (isUrl : String → Bool) (v : JSVal) (msg : String) : List String :=
  if truthy v then
    match v with
    | .vStr s => if isUrl s then [] else [msg]
    | _ => [msg]
  else []

/-- `typeof v === 'object'` (true for plain objects, arrays and `null`). -/
def isTypeofObject : JSVal → Bool
  | .vObj => true
  | .vArr _ => true
  | .vNull => true
  | _ => false

/-- Does a list of strings contain a repeated element?  This is what the
`filter((item, index) => indexOf(item) !== index)`-nonempty test computes. -/
def hasDup : List String → Bool
  | [] => false
  | x :: rest => rest.contains x || hasDup rest

/-! ### validateArtist (src/routes/artists.js lines 8–67) -/

/-- Candidate or stored field set of an Artist document (everything the
routes read or write except `_id` and the timestamps). -/
structure ArtistObj where
  name : JSVal
  genre : JSVal
  country : JSVal
  formed_year : JSVal
  members : JSVal
  biography : JSVal
  website : JSVal
  social_media : JSVal

/-- `!artist.formed_year || isNaN(...) || ... < 1900 || ... > currentYear`
(`new Date().getFullYear()` is passed in as `nowYear`). -/
def formedYearErrs (nowYear : Int) (v : JSVal) : List String :=
  if !(truthy v) || jsIsNaN v || jsLtNum v 1900 || jsGtNum v nowYear then
    [s!"Valid formed year is required (1900 - {nowYear})"]
  else []

/-- One iteration of the per-member loop (messages are numbered from 1). -/
def memberEntryErrs (i : Nat) (m : JSVal) : List String :=
  match m with
  | .vStr s =>
    if (jsTrim s).isEmpty then [s!"Member {i} must be a non-empty string"]
    else if 100 < (jsTrim s).length then [s!"Member {i} name must be less than 100 characters"]
    else []
  | _ => [s!"Member {i} must be a non-empty string"]

/-- The per-member loop: index-numbered messages, starting at 1. -/
def memberMsgs : Nat → List JSVal → List String
  | _, [] => []
  | i, m :: rest => memberEntryErrs i m ++ memberMsgs (i + 1) rest

/-- `members.map(m => m.trim().toLowerCase())`: throws a `TypeError`
(modelled as `Except.error`) as soon as an element is not a string. -/
def trimLowerMemberNames : List JSVal → Except Unit (List String)
  | [] => .ok []
  | .vStr s :: rest => (trimLowerMemberNames rest).map (fun l => lowerStr (jsTrim s) :: l)
  | _ :: _ => .error ()

/-- The whole members section: the required/array/non-empty gate, then the
per-member loop, then the duplicate check (whose `.trim()` call is the one
place `validateArtist` can throw). -/
def membersErrs : JSVal → Except Unit (List String)
  | .vArr [] => .ok ["At least one member is required"]
  | .vArr (m :: rest) =>
    match trimLowerMemberNames (m :: rest) with
    | .error e => .error e
    | .ok names =>
      .ok (memberMsgs 1 (m :: rest) ++
        (if hasDup names then ["Duplicate member names are not allowed"] else []))
  | _ => .ok ["At least one member is required"]

/-- `validateArtist` (src/routes/artists.js lines 8–67).  Pure except for
the duplicate-member check, which calls `.trim()` on every raw member and
therefore throws a `TypeError` — `Except.error ()` here — whenever a
present non-empty members array holds a non-string element. -/
def validateArtist (isUrl : String → Bool) (nowYear : Int) (artist : ArtistObj) :
    Except Unit (List String) :=
  match membersErrs artist.members with
  | .error e => .error e
  | .ok memberBlock =>
  .ok (strFieldErrs artist.name 100
        "Artist name is required and must be a non-empty string"
        "Artist name must be less than 100 characters"
    ++ strFieldErrs artist.genre 50
        "Genre is required and must be a non-empty string"
        "Genre must be less than 50 characters"
    ++ strFieldErrs artist.country 50
        "Country is required and must be a non-empty string"
        "Country must be less than 50 characters"
    ++ formedYearErrs nowYear artist.formed_year
    ++ memberBlock
    ++ optStrMaxErrs artist.biography 2000
        "Biography must be a string with maximum 2000 characters"
    ++ optUrlErrs isUrl artist.website "Website must be a valid URL"
    ++ (if truthy artist.social_media && !(isTypeofObject artist.social_media) then
          ["Social media must be an object"]
        else []))

/-! ### validateAlbum (src/routes/albums.js lines 8–62) -/

/-- Candidate or stored field set of an Album document. -/
structure AlbumObj where
  title : JSVal
  artist_id : JSVal
  release_date : JSVal
  genre : JSVal
  track_count : JSVal
  duration : JSVal
  record_label : JSVal
  cover_image_url : JSVal

/-- `new Date(v)` as a timestamp, `none` for an Invalid Date; string parsing
(`dateParse`) is an oracle for the engine's date parser. -/
def jsNewDate (dateParse : String → Option Int) : JSVal → Option Int
  | .vStr s => dateParse s
  | .vInt n => some n
  | .vNaN => none
  | .vBool b => some (if b then 1 else 0)
  | .vNull => some 0
  | .vArr xs => dateParse (jsToString (.vArr xs))
  | .vObj => none
  | .undef => none

/-- The release-date section: required, parseable, not in the future
(`now` is `new Date()`), not before `new Date('1900-01-01')`. -/
def releaseDateErrs (dateParse : String → Option Int) (now : Int) (v : JSVal) : List String :=
  if !(truthy v) then ["Release date is required"]
  else
    match jsNewDate dateParse v with
    | none => ["Valid release date is required (YYYY-MM-DD format)"]
    | some t =>
      if now < t then ["Release date cannot be in the future"]
      else
        match dateParse "1900-01-01" with
        | some t0 => if t < t0 then ["Release date cannot be before 1900"] else []
        | none => []

/-- `validateAlbum` (src/routes/albums.js lines 8–62). -/
def validateAlbum (isUrl : String → Bool) (dateParse : String → Option Int) (now : Int)
    (album : AlbumObj) : List String :=
  strFieldErrs album.title 200
      "Album title is required and must be a non-empty string"
      "Album title must be less than 200 characters"
  ++ refIdErrs album.artist_id "Valid artist ID is required"
  ++ releaseDateErrs dateParse now album.release_date
  ++ strFieldErrs album.genre 50
      "Genre is required and must be a non-empty string"
      "Genre must be less than 50 characters"
  ++ numRangeErrs album.track_count 200
      "Valid track count is required (minimum 1)"
      "Track count cannot exceed 200"
  ++ numRangeErrs album.duration 600
      "Valid duration in minutes is required (minimum 1)"
      "Duration cannot exceed 600 minutes (10 hours)"
  ++ optStrMaxErrs album.record_label 100
      "Record label must be a string with maximum 100 characters"
  ++ optUrlErrs isUrl album.cover_image_url "Cover image URL must be a valid URL"

/-! ### validateSong (src/unnamed/part_006 lines 8–57) -/

/-- Candidate or stored field set of a Song document. -/
structure SongObj where
  title : JSVal
  album_id : JSVal
  artist_id : JSVal
  duration : JSVal
  track_number : JSVal
  genre : JSVal
  lyrics : JSVal
  audio_url : JSVal
  featured_artists : JSVal

/-- `song.track_number && (isNaN || < 1)` pushes the positive-integer
message, else `song.track_number && > 200` pushes the cap message: both
rules are gated on the field being truthy. -/
def trackNumberErrs (v : JSVal) : List String :=
  if truthy v && (jsIsNaN v || jsLtNum v 1) then ["Track number must be a positive integer"]
  else if truthy v && jsGtNum v 200 then ["Track number cannot exceed 200"]
  else []

/-- `validateSong` (src/unnamed/part_006 lines 8–57).  Never throws. -/
def validateSong (isUrl : String → Bool) (song : SongObj) : List String :=
  strFieldErrs song.title 200
      "Song title is required and must be a non-empty string"
      "Song title must be less than 200 characters"
  ++ refIdErrs song.album_id "Valid album ID is required"
  ++ refIdErrs song.artist_id "Valid artist ID is required"
  ++ numRangeErrs song.duration 3600
      "Valid duration in seconds is required (minimum 1)"
      "Duration cannot exceed 3600 seconds (1 hour)"
  ++ trackNumberErrs song.track_number
  ++ strFieldErrs song.genre 50
      "Genre is required and must be a non-empty string"
      "Genre must be less than 50 characters"
  ++ optStrMaxErrs song.lyrics 10000
      "Lyrics must be a string with maximum 10,000 characters"
  ++ optUrlErrs isUrl song.audio_url "Audio URL must be a valid URL"
  ++ (if truthy song.featured_artists &&
        !(match song.featured_artists with | .vArr _ => true | _ => false) then
        ["Featured artists must be an array"]
      else [])

/-! ### validatePlaylist (src/routes/artists.js, playlists module, lines 8–62) -/

/-- Candidate or stored field set of a Playlist document. -/
structure PlaylistObj where
  name : JSVal
  creator_name : JSVal
  description : JSVal
  songs : JSVal
  tags : JSVal
  is_public : JSVal
  cover_image_url : JSVal

/-- The per-song-id loop of `validatePlaylist`. -/
def songIdMsgs : Nat → List JSVal → List String
  | _, [] => []
  | i, v :: rest =>
    (if jsObjectIdIsValid v then [] else [s!"Song {i} must be a valid MongoDB ObjectId"])
      ++ songIdMsgs (i + 1) rest

/-- `songs.map(id => id.toString())`: throws (`Except.error`) on a `null`
or `undefined` element. -/
def songToStrings : List JSVal → Except Unit (List String)
  | [] => .ok []
  | .undef :: _ => .error ()
  | .vNull :: _ => .error ()
  | v :: rest => (songToStrings rest).map (fun l => jsToString v :: l)

/-- The songs section of `validatePlaylist`: array gate, per-id loop, then
the duplicate check (the one place this validator can throw). -/
def playlistSongsErrs : JSVal → Except Unit (List String)
  | .vArr xs =>
    match songToStrings xs with
    | .error e => .error e
    | .ok ids =>
      .ok (songIdMsgs 1 xs ++
        (if hasDup ids then ["Duplicate songs are not allowed in the playlist"] else []))
  | v => .ok (if truthy v then ["Songs must be an array"] else [])

/-- One iteration of the per-tag loop. -/
def tagEntryErrs (i : Nat) (v : JSVal) : List String :=
  match v with
  | .vStr s =>
    if (jsTrim s).isEmpty then [s!"Tag {i} must be a non-empty string"]
    else if 30 < (jsTrim s).length then [s!"Tag {i} must be less than 30 characters"]
    else []
  | _ => [s!"Tag {i} must be a non-empty string"]

/-- The per-tag loop of `validatePlaylist`. -/
def tagMsgs : Nat → List JSVal → List String
  | _, [] => []
  | i, v :: rest => tagEntryErrs i v ++ tagMsgs (i + 1) rest

/-- The tags section: array gate then the per-tag loop. -/
def tagsErrs : JSVal → List String
  | .vArr xs => tagMsgs 1 xs
  | v => if truthy v then ["Tags must be an array"] else []

/-- `validatePlaylist` (the playlists module inside src/routes/artists.js,
lines 8–62 of that module).  Throws — `Except.error ()` — exactly when a
present songs array holds a `null`/`undefined` element (the
`id.toString()` call of the duplicate check). -/
def validatePlaylist (isUrl : String → Bool) (playlist : PlaylistObj) :
    Except Unit (List String) :=
  match playlistSongsErrs playlist.songs with
  | .error e => .error e
  | .ok songsBlock =>
  .ok (strFieldErrs playlist.name 100
        "Playlist name is required and must be a non-empty string"
        "Playlist name must be less than 100 characters"
    ++ strFieldErrs playlist.creator_name 100
        "Creator name is required and must be a non-empty string"
        "Creator name must be less than 100 characters"
    ++ optStrMaxErrs playlist.description 1000
        "Description must be a string with maximum 1000 characters"
    ++ songsBlock
    ++ tagsErrs playlist.tags
    ++ optUrlErrs isUrl playlist.cover_image_url "Cover image URL must be a valid URL")

/-! ### The sanitise steps of the create/update handlers -/

/-- `req.body.is_public === true || req.body.is_public === 'true'`. -/
def isPublicFlag : JSVal → Bool
  | .vBool b => b
  | .vStr s => s == "true"
  | _ => false

/-- The `artistData` object built by `POST /artists` (timestamps are kept
outside the object; see `ArtistDoc`). -/
def sanitizeArtist (body : ArtistObj) : ArtistObj where
  name := optToStringTrim body.name
  genre := optToStringTrim body.genre
  country := optToStringTrim body.country
  formed_year := jsParseInt body.formed_year
  members :=
    match body.members with
    | .vArr xs => .vArr (sanitizeStrList xs)
    | _ => .vArr []
  biography := optToStringTrimOrEmpty body.biography
  website := optToStringTrimOrEmpty body.website
  social_media :=
    if truthy body.social_media && isTypeofObject body.social_media then body.social_media
    else .vObj

/-- The `artistData` object built by `PUT /artists/:id`, which takes most
body fields raw. -/
def putArtistData (body : ArtistObj) : ArtistObj where
  name := body.name
  genre := body.genre
  country := body.country
  formed_year := jsParseInt body.formed_year
  members := body.members
  biography := jsOrEmptyStr body.biography
  website := jsOrEmptyStr body.website
  social_media := jsOrEmptyObj body.social_media

/-- The `albumData` object built by `POST /albums`. -/
def sanitizeAlbum (body : AlbumObj) : AlbumObj where
  title := optToStringTrim body.title
  artist_id := optToStringTrim body.artist_id
  release_date := optToStringTrim body.release_date
  genre := optToStringTrim body.genre
  track_count := jsParseInt body.track_count
  duration := jsParseInt body.duration
  record_label := optToStringTrimOrEmpty body.record_label
  cover_image_url := optToStringTrimOrEmpty body.cover_image_url

/-- The `albumData` object built by `PUT /albums/:id` (raw strings, parsed
numbers). -/
def putAlbumData (body : AlbumObj) : AlbumObj where
  title := body.title
  artist_id := body.artist_id
  release_date := body.release_date
  genre := body.genre
  track_count := jsParseInt body.track_count
  duration := jsParseInt body.duration
  record_label := jsOrEmptyStr body.record_label
  cover_image_url := jsOrEmptyStr body.cover_image_url

/-- The `songData` object built by both `POST /songs` and `PUT /songs/:id`
(they sanitise identically).  Note `track_number`: a falsy value — `0`,
`''`, `null`, `undefined`, `NaN`, `false` — becomes `null` before
validation. -/
def sanitizeSong (body : SongObj) : SongObj where
  title := optToStringTrim body.title
  album_id := optToStringTrim body.album_id
  artist_id := optToStringTrim body.artist_id
  duration := jsParseInt body.duration
  track_number := if truthy body.track_number then jsParseInt body.track_number else .vNull
  genre := optToStringTrim body.genre
  lyrics := optToStringTrimOrEmpty body.lyrics
  audio_url := optToStringTrimOrEmpty body.audio_url
  featured_artists :=
    match body.featured_artists with
    | .vArr xs => .vArr (sanitizeStrList xs)
    | _ => .vArr []

/-- The `playlistData` object built by both `POST /playlists` and
`PUT /playlists/:id` (identical sanitise).  Note `songs`: ids that fail
`ObjectId.isValid` are silently filtered out here, before validation. -/
def sanitizePlaylist (body : PlaylistObj) : PlaylistObj where
  name := optToStringTrim body.name
  creator_name := optToStringTrim body.creator_name
  description := optToStringTrimOrEmpty body.description
  songs :=
    match body.songs with
    | .vArr xs => .vArr (xs.filter jsObjectIdIsValid)
    | _ => .vArr []
  tags :=
    match body.tags with
    | .vArr xs => .vArr (sanitizeStrList xs)
    | _ => .vArr []
  is_public := .vBool (isPublicFlag body.is_public)
  cover_image_url := optToStringTrimOrEmpty body.cover_image_url

/-! ### Declarative field contracts

The §3 field contract of each entity, stated as one positive conjunction —
rather than by error accumulation — so that "the validator returns no
violations iff the record satisfies the contract" is a statement between
two independent definitions. -/

/-- Required trimmed string of bounded length. -/
def strFieldOk (v : JSVal) (n : Nat) : Bool :=
  match v with
  | .vStr s => !(jsTrim s).isEmpty && (jsTrim s).length ≤ n
  | _ => false

/-- The required-branch failure of the same rule (used to state which rule
a violation message belongs to). -/
def strFieldReqBad (v : JSVal) : Bool :=
  match v with
  | .vStr s => (jsTrim s).isEmpty
  | _ => true

/-- Present, well-formed reference id. -/
def refIdOk (v : JSVal) : Bool := truthy v && jsObjectIdIsValid v

/-- Required number in `[1, hi]`. -/
def numRangeOk (v : JSVal) (hi : Int) : Bool :=
  truthy v && !(jsIsNaN v) && !(jsLtNum v 1) && !(jsGtNum v hi)

/-- The low/required branch of the same rule. -/
def numRangeReqBad (v : JSVal) : Bool := !(truthy v) || jsIsNaN v || jsLtNum v 1

/-- Optional string of bounded (untrimmed) length. -/
def optStrMaxOk (v : JSVal) (n : Nat) : Bool :=
  !(truthy v) || (match v with | .vStr s => decide (s.length ≤ n) | _ => false)

/-- Optional URL string. -/
def optUrlOk (isUrl : String → Bool) (v : JSVal) : Bool :=
  !(truthy v) || (match v with | .vStr s => isUrl s | _ => false)

/-- One member entry: a non-empty trimmed string of at most 100
characters. -/
def memberOk (v : JSVal) : Bool :=
  match v with
  | .vStr s => !(jsTrim s).isEmpty && (jsTrim s).length ≤ 100
  | _ => false

/-- Required formed year in `[1900, nowYear]`. -/
def formedYearOk (nowYear : Int) (v : JSVal) : Bool :=
  truthy v && !(jsIsNaN v) && !(jsLtNum v 1900) && !(jsGtNum v nowYear)

/-- The members field: a non-empty array of valid member strings with no
case-insensitive duplicate of the trimmed names. -/
def membersOk (v : JSVal) : Bool :=
  match v with
  | .vArr xs =>
    !xs.isEmpty && xs.all memberOk &&
      (match trimLowerMemberNames xs with
       | .ok names => !hasDup names
       | .error _ => false)
  | _ => false

/-- The required-branch failure of the members rule. -/
def membersReqBad (v : JSVal) : Bool :=
  match v with
  | .vArr [] => true
  | .vArr (_ :: _) => false
  | _ => true

/-- The full Artist field contract. -/
def artistContract (isUrl : String → Bool) (nowYear : Int) (a : ArtistObj) : Bool :=
  strFieldOk a.name 100 && strFieldOk a.genre 50 && strFieldOk a.country 50 &&
  formedYearOk nowYear a.formed_year && membersOk a.members &&
  optStrMaxOk a.biography 2000 && optUrlOk isUrl a.website &&
  (!(truthy a.social_media) || isTypeofObject a.social_media)

/-- Required, parseable release date, not in the future and not before
1900. -/
def releaseDateOk (dateParse : String → Option Int) (now : Int) (v : JSVal) : Bool :=
  truthy v &&
    (match jsNewDate dateParse v with
     | none => false
     | some t =>
       decide (t ≤ now) &&
         (match dateParse "1900-01-01" with
          | some t0 => decide (t0 ≤ t)
          | none => true))

/-- The full Album field contract. -/
def albumContract (isUrl : String → Bool) (dateParse : String → Option Int) (now : Int)
    (a : AlbumObj) : Bool :=
  strFieldOk a.title 200 && refIdOk a.artist_id && releaseDateOk dateParse now a.release_date &&
  strFieldOk a.genre 50 && numRangeOk a.track_count 200 && numRangeOk a.duration 600 &&
  optStrMaxOk a.record_label 100 && optUrlOk isUrl a.cover_image_url

/-- Optional track number in `[1, 200]`. -/
def trackNumberOk (v : JSVal) : Bool :=
  !(truthy v) || (!(jsIsNaN v) && !(jsLtNum v 1) && !(jsGtNum v 200))

/-- Optional featured-artists array. -/
def featuredOk (v : JSVal) : Bool :=
  !(truthy v) || (match v with | .vArr _ => true | _ => false)

/-- The full Song field contract. -/
def songContract (isUrl : String → Bool) (s : SongObj) : Bool :=
  strFieldOk s.title 200 && refIdOk s.album_id && refIdOk s.artist_id &&
  numRangeOk s.duration 3600 && trackNumberOk s.track_number && strFieldOk s.genre 50 &&
  optStrMaxOk s.lyrics 10000 && optUrlOk isUrl s.audio_url && featuredOk s.featured_artists

/-- One tag entry: non-empty trimmed string of at most 30 characters. -/
def tagOk (v : JSVal) : Bool :=
  match v with
  | .vStr s => !(jsTrim s).isEmpty && (jsTrim s).length ≤ 30
  | _ => false

/-- The songs field of a playlist: absent/falsy, or an array of well-formed
ids with no duplicate id string. -/
def songsFieldOk (v : JSVal) : Bool :=
  match v with
  | .vArr xs =>
    xs.all jsObjectIdIsValid &&
      (match songToStrings xs with
       | .ok ids => !hasDup ids
       | .error _ => false)
  | w => !truthy w

/-- The tags field: absent/falsy, or an array of valid tags. -/
def tagsFieldOk (v : JSVal) : Bool :=
  match v with
  | .vArr xs => xs.all tagOk
  | w => !truthy w

/-- The full Playlist field contract. -/
def playlistContract (isUrl : String → Bool) (p : PlaylistObj) : Bool :=
  strFieldOk p.name 100 && strFieldOk p.creator_name 100 &&
  optStrMaxOk p.description 1000 && songsFieldOk p.songs && tagsFieldOk p.tags &&
  optUrlOk isUrl p.cover_image_url

/-- One required-field rule of a validator: the rule's required-branch
condition, the setter that removes the field, and the message that branch
pushes. -/
structure ReqRule (β : Type) where
  bad : β → Bool
  set : β → JSVal → β
  reqMsg : String

/-- The required-field rules of `validateArtist` with their messages. -/
def artistReqRules (nowYear : Int) : List (ReqRule ArtistObj) :=
  [⟨fun a => strFieldReqBad a.name, fun a v => { a with name := v },
    "Artist name is required and must be a non-empty string"⟩,
   ⟨fun a => strFieldReqBad a.genre, fun a v => { a with genre := v },
    "Genre is required and must be a non-empty string"⟩,
   ⟨fun a => strFieldReqBad a.country, fun a v => { a with country := v },
    "Country is required and must be a non-empty string"⟩,
   ⟨fun a => !(formedYearOk nowYear a.formed_year), fun a v => { a with formed_year := v },
    s!"Valid formed year is required (1900 - {nowYear})"⟩,
   ⟨fun a => membersReqBad a.members, fun a v => { a with members := v },
    "At least one member is required"⟩]

/-- The required-field rules of `validateAlbum`. -/
def albumReqRules : List (ReqRule AlbumObj) :=
  [⟨fun a => strFieldReqBad a.title, fun a v => { a with title := v },
    "Album title is required and must be a non-empty string"⟩,
   ⟨fun a => !(refIdOk a.artist_id), fun a v => { a with artist_id := v },
    "Valid artist ID is required"⟩,
   ⟨fun a => !(truthy a.release_date), fun a v => { a with release_date := v },
    "Release date is required"⟩,
   ⟨fun a => strFieldReqBad a.genre, fun a v => { a with genre := v },
    "Genre is required and must be a non-empty string"⟩,
   ⟨fun a => numRangeReqBad a.track_count, fun a v => { a with track_count := v },
    "Valid track count is required (minimum 1)"⟩,
   ⟨fun a => numRangeReqBad a.duration, fun a v => { a with duration := v },
    "Valid duration in minutes is required (minimum 1)"⟩]

/-- The required-field rules of `validateSong`. -/
def songReqRules : List (ReqRule SongObj) :=
  [⟨fun s => strFieldReqBad s.title, fun s v => { s with title := v },
    "Song title is required and must be a non-empty string"⟩,
   ⟨fun s => !(refIdOk s.album_id), fun s v => { s with album_id := v },
    "Valid album ID is required"⟩,
   ⟨fun s => !(refIdOk s.artist_id), fun s v => { s with artist_id := v },
    "Valid artist ID is required"⟩,
   ⟨fun s => numRangeReqBad s.duration, fun s v => { s with duration := v },
    "Valid duration in seconds is required (minimum 1)"⟩,
   ⟨fun s => strFieldReqBad s.genre, fun s v => { s with genre := v },
    "Genre is required and must be a non-empty string"⟩]

/-- The required-field rules of `validatePlaylist`. -/
def playlistReqRules : List (ReqRule PlaylistObj) :=
  [⟨fun p => strFieldReqBad p.name, fun p v => { p with name := v },
    "Playlist name is required and must be a non-empty string"⟩,
   ⟨fun p => strFieldReqBad p.creator_name, fun p v => { p with creator_name := v },
    "Creator name is required and must be a non-empty string"⟩]

/-- The too-long branch condition of a required string field: present and
non-empty as a trimmed string, but over the bound. -/
def strFieldLenBad (v : JSVal) (maxLen : Nat) : Bool :=
  match v with
  | .vStr s => !(jsTrim s).isEmpty && decide (maxLen < (jsTrim s).length)
  | _ => false

/-- The exceeds-bound branch condition of a numeric-range field. -/
def numRangeHiBad (v : JSVal) (hi : Int) : Bool :=
  !(numRangeReqBad v) && jsGtNum v hi

/-- The violation condition of an optional bounded-string field. -/
def optStrBad (v : JSVal) (maxLen : Nat) : Bool :=
  truthy v && (match v with | .vStr s => decide (maxLen < s.length) | _ => true)

/-- The violation condition of an optional URL field. -/
def optUrlBad (isUrl : String → Bool) (v : JSVal) : Bool :=
  truthy v && (match v with | .vStr s => !isUrl s | _ => true)

/-- Truthy but not an array (the array-shape guards). -/
def notArrBad (v : JSVal) : Bool :=
  truthy v && !(match v with | .vArr _ => true | _ => false)

/-- The duplicate-member-names branch condition. -/
def membersDupBad (v : JSVal) : Bool :=
  match v with
  | .vArr xs =>
    match trimLowerMemberNames xs with
    | .ok names => hasDup names
    | .error _ => false
  | _ => false

/-- The duplicate-songs branch condition. -/
def songsDupBad (v : JSVal) : Bool :=
  match v with
  | .vArr xs =>
    match songToStrings xs with
    | .ok ids => hasDup ids
    | .error _ => false
  | _ => false

/-- The unparseable-date branch condition. -/
def dateFmtBad (dateParse : String → Option Int) (v : JSVal) : Bool :=
  truthy v && (jsNewDate dateParse v).isNone

/-- The future-date branch condition. -/
def dateFutureBad (dateParse : String → Option Int) (now : Int) (v : JSVal) : Bool :=
  truthy v && (match jsNewDate dateParse v with | some t => decide (now < t) | none => false)

/-- The before-1900 branch condition. -/
def dateOldBad (dateParse : String → Option Int) (now : Int) (v : JSVal) : Bool :=
  truthy v &&
    (match jsNewDate dateParse v with
     | some t =>
       !decide (now < t) &&
         (match dateParse "1900-01-01" with | some t0 => decide (t < t0) | none => false)
     | none => false)

/-- The not-positive branch condition of the optional track number. -/
def trackLoBad (v : JSVal) : Bool := truthy v && (jsIsNaN v || jsLtNum v 1)

/-- The exceeds-200 branch condition of the optional track number. -/
def trackHiBad (v : JSVal) : Bool := !(trackLoBad v) && truthy v && jsGtNum v 200

/-- One message-pushing branch of a validator: the exact condition under
which the code pushes its (static) message. -/
structure ViolRule (β : Type) where
  viol : β → Bool
  msg : String

/-- Every static-message rule of `validateArtist` (the index-numbered
per-member messages are handled separately). -/
def artistViolRules (isUrl : String → Bool) (nowYear : Int) : List (ViolRule ArtistObj) :=
  [⟨fun a => strFieldReqBad a.name, "Artist name is required and must be a non-empty string"⟩,
   ⟨fun a => strFieldLenBad a.name 100, "Artist name must be less than 100 characters"⟩,
   ⟨fun a => strFieldReqBad a.genre, "Genre is required and must be a non-empty string"⟩,
   ⟨fun a => strFieldLenBad a.genre 50, "Genre must be less than 50 characters"⟩,
   ⟨fun a => strFieldReqBad a.country, "Country is required and must be a non-empty string"⟩,
   ⟨fun a => strFieldLenBad a.country 50, "Country must be less than 50 characters"⟩,
   ⟨fun a => !(formedYearOk nowYear a.formed_year),
    s!"Valid formed year is required (1900 - {nowYear})"⟩,
   ⟨fun a => membersReqBad a.members, "At least one member is required"⟩,
   ⟨fun a => membersDupBad a.members, "Duplicate member names are not allowed"⟩,
   ⟨fun a => optStrBad a.biography 2000,
    "Biography must be a string with maximum 2000 characters"⟩,
   ⟨fun a => optUrlBad isUrl a.website, "Website must be a valid URL"⟩,
   ⟨fun a => truthy a.social_media && !(isTypeofObject a.social_media),
    "Social media must be an object"⟩]

/-- Every rule of `validateAlbum` with its message. -/
def albumViolRules (isUrl : String → Bool) (dateParse : String → Option Int) (now : Int) :
    List (ViolRule AlbumObj) :=
  [⟨fun a => strFieldReqBad a.title, "Album title is required and must be a non-empty string"⟩,
   ⟨fun a => strFieldLenBad a.title 200, "Album title must be less than 200 characters"⟩,
   ⟨fun a => !(refIdOk a.artist_id), "Valid artist ID is required"⟩,
   ⟨fun a => !(truthy a.release_date), "Release date is required"⟩,
   ⟨fun a => dateFmtBad dateParse a.release_date,
    "Valid release date is required (YYYY-MM-DD format)"⟩,
   ⟨fun a => dateFutureBad dateParse now a.release_date, "Release date cannot be in the future"⟩,
   ⟨fun a => dateOldBad dateParse now a.release_date, "Release date cannot be before 1900"⟩,
   ⟨fun a => strFieldReqBad a.genre, "Genre is required and must be a non-empty string"⟩,
   ⟨fun a => strFieldLenBad a.genre 50, "Genre must be less than 50 characters"⟩,
   ⟨fun a => numRangeReqBad a.track_count, "Valid track count is required (minimum 1)"⟩,
   ⟨fun a => numRangeHiBad a.track_count 200, "Track count cannot exceed 200"⟩,
   ⟨fun a => numRangeReqBad a.duration, "Valid duration in minutes is required (minimum 1)"⟩,
   ⟨fun a => numRangeHiBad a.duration 600, "Duration cannot exceed 600 minutes (10 hours)"⟩,
   ⟨fun a => optStrBad a.record_label 100,
    "Record label must be a string with maximum 100 characters"⟩,
   ⟨fun a => optUrlBad isUrl a.cover_image_url, "Cover image URL must be a valid URL"⟩]

/-- Every rule of `validateSong` with its message. -/
def songViolRules (isUrl : String → Bool) : List (ViolRule SongObj) :=
  [⟨fun s => strFieldReqBad s.title, "Song title is required and must be a non-empty string"⟩,
   ⟨fun s => strFieldLenBad s.title 200, "Song title must be less than 200 characters"⟩,
   ⟨fun s => !(refIdOk s.album_id), "Valid album ID is required"⟩,
   ⟨fun s => !(refIdOk s.artist_id), "Valid artist ID is required"⟩,
   ⟨fun s => numRangeReqBad s.duration, "Valid duration in seconds is required (minimum 1)"⟩,
   ⟨fun s => numRangeHiBad s.duration 3600, "Duration cannot exceed 3600 seconds (1 hour)"⟩,
   ⟨fun s => trackLoBad s.track_number, "Track number must be a positive integer"⟩,
   ⟨fun s => trackHiBad s.track_number, "Track number cannot exceed 200"⟩,
   ⟨fun s => strFieldReqBad s.genre, "Genre is required and must be a non-empty string"⟩,
   ⟨fun s => strFieldLenBad s.genre 50, "Genre must be less than 50 characters"⟩,
   ⟨fun s => optStrBad s.lyrics 10000,
    "Lyrics must be a string with maximum 10,000 characters"⟩,
   ⟨fun s => optUrlBad isUrl s.audio_url, "Audio URL must be a valid URL"⟩,
   ⟨fun s => notArrBad s.featured_artists, "Featured artists must be an array"⟩]

/-- Every static-message rule of `validatePlaylist` (the index-numbered
per-song and per-tag messages are handled separately). -/
def playlistViolRules (isUrl : String → Bool) : List (ViolRule PlaylistObj) :=
  [⟨fun p => strFieldReqBad p.name, "Playlist name is required and must be a non-empty string"⟩,
   ⟨fun p => strFieldLenBad p.name 100, "Playlist name must be less than 100 characters"⟩,
   ⟨fun p => strFieldReqBad p.creator_name,
    "Creator name is required and must be a non-empty string"⟩,
   ⟨fun p => strFieldLenBad p.creator_name 100,
    "Creator name must be less than 100 characters"⟩,
   ⟨fun p => optStrBad p.description 1000,
    "Description must be a string with maximum 1000 characters"⟩,
   ⟨fun p => notArrBad p.songs, "Songs must be an array"⟩,
   ⟨fun p => songsDupBad p.songs, "Duplicate songs are not allowed in the playlist"⟩,
   ⟨fun p => notArrBad p.tags, "Tags must be an array"⟩,
   ⟨fun p => optUrlBad isUrl p.cover_image_url, "Cover image URL must be a valid URL"⟩]

/-! ### The document store

A stored document is its sanitised/validated field set plus the driver `_id`
(kept as the canonical hex string the driver generates) and the two
timestamps.  A collection is a list in natural (insertion) order. -/

/-- A document of the `artists` collection. -/
structure ArtistDoc where
  _id : String
  data : ArtistObj
  createdAt : Int
  updatedAt : Int

/-- A document of the `albums` collection. -/
structure AlbumDoc where
  _id : String
  data : AlbumObj
  createdAt : Int
  updatedAt : Int

/-- A document of the `songs` collection. -/
structure SongDoc where
  _id : String
  data : SongObj
  createdAt : Int
  updatedAt : Int

/-- A document of the `playlists` collection. -/
structure PlaylistDoc where
  _id : String
  data : PlaylistObj
  createdAt : Int
  updatedAt : Int

/-- The four collections of the database. -/
structure Db where
  artists : List ArtistDoc
  albums : List AlbumDoc
  songs : List SongDoc
  playlists : List PlaylistDoc

/-- BSON equality between a query value and a stored value, for the value
shapes the routes compare (strings, integers, booleans, null). -/
def bsonEq (a b : JSVal) : Bool :=
  match a, b with
  | .vStr s, .vStr t => s == t
  | .vInt m, .vInt n => m == n
  | .vBool x, .vBool y => x == y
  | .vNull, .vNull => true
  | _, _ => false

/-- The ObjectId denoted by a value accepted by `ObjectId.isValid`, as its
canonical hex string: hex strings canonicalise by lower-casing; a numeric
argument (an ObjectId built from a timestamp) is represented by a tag that
no canonical 24-hex-digit id equals.  (12-character binary string ids are
outside the model's scope; no claim involves them.) -/
def oidOfVal : JSVal → String
  | .vStr s => lowerStr s
  | .vInt n => "ts:" ++ toString n
  | _ => "invalid"

/-- `updateOne`: update the first document matching `p`; `none` when
`matchedCount` is `0`. -/
def updateFirst {δ : Type} (p : δ → Bool) (f : δ → δ) : List δ → Option (List δ)
  | [] => none
  | d :: rest =>
    if p d then some (f d :: rest)
    else (updateFirst p f rest).map (fun l => d :: l)

/-- `deleteOne`: remove the first document matching `p`; `none` when
`deletedCount` is `0`. -/
def deleteFirst {δ : Type} (p : δ → Bool) : List δ → Option (List δ)
  | [] => none
  | d :: rest =>
    if p d then some rest
    else (deleteFirst p rest).map (fun l => d :: l)

/-! ### Listing handlers (`GET /{collection}`) -/

/-- Express's `if (req.query.x)` guard on a query parameter: an absent
parameter or an empty string is falsy. -/
def qparam : Option String → Option String
  | none => none
  | some s => if s.isEmpty then none else some s

/-- `≤` on strings (BSON compares strings bytewise; `YYYY-MM-DD` strings
compare chronologically either way). -/
def strLe (a b : String) : Bool := a == b || listLtChar a.toList b.toList

/-- Apply the optional allow-listed sort: an unrecognised `sortBy` is
silently ignored; `sortOrder=desc` descends, anything else ascends. -/
def applySortOpt {δ : Type} (proj : String → Option (δ → JSVal))
    (sortBy sortOrder : Option String) (docs : List δ) : List δ :=
  match sortBy with
  | none => docs
  | some f =>
    match proj f with
    | none => docs
    | some fld => mongoSort fld (if sortOrder == some "desc" then -1 else 1) docs

/-- The artists sort allow-list. -/
def artistSortProj : String → Option (ArtistDoc → JSVal)
  | "name" => some (fun d => d.data.name)
  | "genre" => some (fun d => d.data.genre)
  | "country" => some (fun d => d.data.country)
  | "formed_year" => some (fun d => d.data.formed_year)
  | "createdAt" => some (fun d => .vInt d.createdAt)
  | _ => none

/-- The filter built by `GET /artists` (genre and country as
case-insensitive regexes). -/
def artistsQuery (genre country : Option String) (d : ArtistDoc) : Bool :=
  (match qparam genre with
   | some g => regexMatchesVal g d.data.genre
   | none => true)
  && (match qparam country with
      | some c => regexMatchesVal c d.data.country
      | none => true)

/-- `GET /artists` (src/routes/artists.js lines 80–141). -/
def artistsList (db : Db) (genre country pageQ limitQ sortBy sortOrder : Option String) :
    ListResp ArtistDoc :=
  let matching := applySortOpt artistSortProj (qparam sortBy) sortOrder
    (db.artists.filter (artistsQuery genre country))
  listCore matching (parseIntOr pageQ 1) (parseIntOr limitQ 10)

/-- The albums sort allow-list. -/
def albumSortProj : String → Option (AlbumDoc → JSVal)
  | "title" => some (fun d => d.data.title)
  | "genre" => some (fun d => d.data.genre)
  | "release_date" => some (fun d => d.data.release_date)
  | "track_count" => some (fun d => d.data.track_count)
  | "duration" => some (fun d => d.data.duration)
  | "createdAt" => some (fun d => .vInt d.createdAt)
  | _ => none

/-- The filter built by `GET /albums`: genre regex, exact `artist_id` match
when the parameter is a well-formed id (silently ignored otherwise), and a
string range over `release_date` for a numeric `year`. -/
def albumsQuery (genre artistIdQ yearQ : Option String) (d : AlbumDoc) : Bool :=
  (match qparam genre with
   | some g => regexMatchesVal g d.data.genre
   | none => true)
  && (match qparam artistIdQ with
      | some a => if isValidObjectIdStr a then bsonEq (.vStr a) d.data.artist_id else true
      | none => true)
  && (match qparam yearQ with
      | some y =>
        match parseIntStr y with
        | some n =>
          (match d.data.release_date with
           | .vStr s => strLe (toString n ++ "-01-01") s && strLe s (toString n ++ "-12-31")
           | _ => false)
        | none => true
      | none => true)

/-- `GET /albums` (src/routes/albums.js lines 75–146). -/
def albumsList (db : Db) (genre artistIdQ yearQ pageQ limitQ sortBy sortOrder : Option String) :
    ListResp AlbumDoc :=
  let matching := applySortOpt albumSortProj (qparam sortBy) sortOrder
    (db.albums.filter (albumsQuery genre artistIdQ yearQ))
  listCore matching (parseIntOr pageQ 1) (parseIntOr limitQ 10)

/-- The songs sort allow-list. -/
def songSortProj : String → Option (SongDoc → JSVal)
  | "title" => some (fun d => d.data.title)
  | "genre" => some (fun d => d.data.genre)
  | "duration" => some (fun d => d.data.duration)
  | "track_number" => some (fun d => d.data.track_number)
  | "createdAt" => some (fun d => .vInt d.createdAt)
  | _ => none

/-- The duration sub-query of `GET /songs`: bounds are added only when the
parameter parses; if both parameters fail to produce a bound the query is
the empty document `{}` and matches no stored (numeric) duration. -/
def songDurationPred (dminQ dmaxQ : Option String) (v : JSVal) : Bool :=
  match qparam dminQ, qparam dmaxQ with
  | none, none => true
  | qmin, qmax =>
    let lo := match qmin with | some s => parseIntStr s | none => none
    let hi := match qmax with | some s => parseIntStr s | none => none
    match lo, hi with
    | none, none => false
    | _, _ =>
      match v with
      | .vInt n =>
        (match lo with | some l => decide (l ≤ n) | none => true)
          && (match hi with | some h => decide (n ≤ h) | none => true)
      | _ => false

/-- The filter built by `GET /songs`. -/
def songsQuery (genre artistIdQ albumIdQ dminQ dmaxQ : Option String) (d : SongDoc) : Bool :=
  (match qparam genre with
   | some g => regexMatchesVal g d.data.genre
   | none => true)
  && (match qparam artistIdQ with
      | some a => if isValidObjectIdStr a then bsonEq (.vStr a) d.data.artist_id else true
      | none => true)
  && (match qparam albumIdQ with
      | some a => if isValidObjectIdStr a then bsonEq (.vStr a) d.data.album_id else true
      | none => true)
  && songDurationPred dminQ dmaxQ d.data.duration

/-- `GET /songs` (src/unnamed/part_006 lines 70–147). -/
def songsList (db : Db)
    (genre artistIdQ albumIdQ dminQ dmaxQ pageQ limitQ sortBy sortOrder : Option String) :
    ListResp SongDoc :=
  let matching := applySortOpt songSortProj (qparam sortBy) sortOrder
    (db.songs.filter (songsQuery genre artistIdQ albumIdQ dminQ dmaxQ))
  listCore matching (parseIntOr pageQ 1) (parseIntOr limitQ 10)

/-- The playlists sort allow-list. -/
def playlistSortProj : String → Option (PlaylistDoc → JSVal)
  | "name" => some (fun d => d.data.name)
  | "creator_name" => some (fun d => d.data.creator_name)
  | "createdAt" => some (fun d => .vInt d.createdAt)
  | "updatedAt" => some (fun d => .vInt d.updatedAt)
  | _ => none

/-- The filter built by `GET /playlists`: creator and tag regexes (a regex
on the `tags` array matches elementwise) and — whenever `is_public` is
present at all, even empty — an exact boolean match against
`req.query.is_public === 'true'`. -/
def playlistsQuery (creatorQ tagQ isPublicQ : Option String) (d : PlaylistDoc) : Bool :=
  (match qparam creatorQ with
   | some c => regexMatchesVal c d.data.creator_name
   | none => true)
  && (match qparam tagQ with
      | some t => regexMatchesVal t d.data.tags
      | none => true)
  && (match isPublicQ with
      | some s => bsonEq (.vBool (s == "true")) d.data.is_public
      | none => true)

/-- `GET /playlists` (playlists module lines 413–478). -/
def playlistsList (db : Db)
    (creatorQ tagQ isPublicQ pageQ limitQ sortBy sortOrder : Option String) :
    ListResp PlaylistDoc :=
  let matching := applySortOpt playlistSortProj (qparam sortBy) sortOrder
    (db.playlists.filter (playlistsQuery creatorQ tagQ isPublicQ))
  listCore matching (parseIntOr pageQ 1) (parseIntOr limitQ 10)

/-! ### Create handlers (`POST /{collection}`)

Every create handler takes the body (behind the auth gate, which is outside
this layer), the timestamp `now` (`new Date()`), and `freshId`, the
canonical id the driver mints for `insertOne` (distinct, by construction of
ObjectIds, from every stored id; the 201 response body is the document
re-fetched by that id). -/

/-- Outcome of a create request. -/
inductive CreateResult (δ : Type) where
  | created (doc : δ)
  | validationFailed (details : List String)
  | refErr (msg : String)
  | conflict (msg : String)
  | serverError

/-- HTTP status of a create outcome: 201 created, 400 for validation or
reference failures, 409 duplicate, 500 for a thrown error. -/
def CreateResult.status {δ : Type} : CreateResult δ → Nat
  | .created _ => 201
  | .validationFailed _ => 400
  | .refErr _ => 400
  | .conflict _ => 409
  | .serverError => 500

/-- The anchored case-insensitive duplicate pattern
`new RegExp('^' + name + '$', 'i')`. -/
def dupNamePattern (name : JSVal) : String := "^" ++ jsToString name ++ "$"

/-- `POST /artists` (src/routes/artists.js lines 176–234). -/
def createArtist (isUrl : String → Bool) (nowYear now : Int) (freshId : String)
    (db : Db) (body : ArtistObj) : CreateResult ArtistDoc × Db :=
  let artistData := sanitizeArtist body
  match validateArtist isUrl nowYear artistData with
  | .error _ => (.serverError, db)
  | .ok validationErrors =>
    if !validationErrors.isEmpty then (.validationFailed validationErrors, db)
    else
      match db.artists.find? (fun d => regexMatchesVal (dupNamePattern artistData.name) d.data.name) with
      | some _ => (.conflict "Artist already exists", db)
      | none =>
        let doc : ArtistDoc := ⟨freshId, artistData, now, now⟩
        (.created doc, { db with artists := db.artists ++ [doc] })

/-- `POST /albums` (src/routes/albums.js lines 206–277). -/
def createAlbum (isUrl : String → Bool) (dateParse : String → Option Int) (now : Int)
    (freshId : String) (db : Db) (body : AlbumObj) : CreateResult AlbumDoc × Db :=
  let albumData := sanitizeAlbum body
  let validationErrors := validateAlbum isUrl dateParse now albumData
  if !validationErrors.isEmpty then (.validationFailed validationErrors, db)
  else
    match db.artists.find? (fun d => oidOfVal albumData.artist_id == oidCanon d._id) with
    | none => (.refErr "Artist not found", db)
    | some _ =>
      match db.albums.find? (fun d =>
          regexMatchesVal (dupNamePattern albumData.title) d.data.title
            && bsonEq albumData.artist_id d.data.artist_id) with
      | some _ => (.conflict "Album already exists", db)
      | none =>
        let doc : AlbumDoc := ⟨freshId, albumData, now, now⟩
        (.created doc, { db with albums := db.albums ++ [doc] })

/-- `POST /songs` (src/unnamed/part_006 lines 236–337). -/
def createSong (isUrl : String → Bool) (now : Int) (freshId : String)
    (db : Db) (body : SongObj) : CreateResult SongDoc × Db :=
  let songData := sanitizeSong body
  let validationErrors := validateSong isUrl songData
  if !validationErrors.isEmpty then (.validationFailed validationErrors, db)
  else
    match db.albums.find? (fun d => oidOfVal songData.album_id == oidCanon d._id) with
    | none => (.refErr "Album not found", db)
    | some _ =>
      match db.artists.find? (fun d => oidOfVal songData.artist_id == oidCanon d._id) with
      | none => (.refErr "Artist not found", db)
      | some _ =>
        match db.songs.find? (fun d =>
            regexMatchesVal (dupNamePattern songData.title) d.data.title
              && bsonEq songData.album_id d.data.album_id) with
        | some _ => (.conflict "Song already exists", db)
        | none =>
          if truthy songData.track_number then
            match db.songs.find? (fun d =>
                bsonEq songData.album_id d.data.album_id
                  && bsonEq songData.track_number d.data.track_number) with
            | some _ => (.conflict "Track number already exists", db)
            | none =>
              let doc : SongDoc := ⟨freshId, songData, now, now⟩
              (.created doc, { db with songs := db.songs ++ [doc] })
          else
            let doc : SongDoc := ⟨freshId, songData, now, now⟩
            (.created doc, { db with songs := db.songs ++ [doc] })

/-- The array of sanitised song ids of a playlist body (always an array
after `sanitizePlaylist`). -/
def songIdList : JSVal → List JSVal
  | .vArr xs => xs
  | _ => []

/-- The songs-existence check of the playlist create/update handlers:
`find({_id: {$in: songIds}})` and compare the number of matches with the
number of requested ids. -/
def playlistSongsExist (db : Db) (ids : List JSVal) : Bool :=
  (db.songs.filter (fun d => ids.any (fun v => oidOfVal v == oidCanon d._id))).length == ids.length

/-- `POST /playlists` (playlists module lines 562–637). -/
def createPlaylist (isUrl : String → Bool) (now : Int) (freshId : String)
    (db : Db) (body : PlaylistObj) : CreateResult PlaylistDoc × Db :=
  let playlistData := sanitizePlaylist body
  match validatePlaylist isUrl playlistData with
  | .error _ => (.serverError, db)
  | .ok validationErrors =>
    if !validationErrors.isEmpty then (.validationFailed validationErrors, db)
    else
      let ids := songIdList playlistData.songs
      if !ids.isEmpty && !(playlistSongsExist db ids) then (.refErr "Invalid songs", db)
      else
        match db.playlists.find? (fun d =>
            regexMatchesVal (dupNamePattern playlistData.name) d.data.name
              && bsonEq playlistData.creator_name d.data.creator_name) with
        | some _ => (.conflict "Playlist already exists", db)
        | none =>
          let doc : PlaylistDoc := ⟨freshId, playlistData, now, now⟩
          (.created doc, { db with playlists := db.playlists ++ [doc] })

/-! ### Update handlers (`PUT /{collection}/:id`)

None of the four has any duplicate re-check — and accordingly no 409
outcome exists in any of their code paths. -/

/-- Outcome of an update request. -/
inductive UpdateResult where
  | updated
  | invalidId
  | validationFailed (details : List String)
  | refErr (msg : String)
  | notFound
  | serverError

/-- HTTP status of an update outcome: 204 on success, 400 for a malformed
id / validation / reference failure, 404 unknown id, 500 thrown error. -/
def UpdateResult.status : UpdateResult → Nat
  | .updated => 204
  | .invalidId => 400
  | .validationFailed _ => 400
  | .refErr _ => 400
  | .notFound => 404
  | .serverError => 500

/-- `PUT /artists/:id` (src/routes/artists.js lines 237–289). -/
def putArtist (isUrl : String → Bool) (nowYear now : Int) (db : Db) (idStr : String)
    (body : ArtistObj) : UpdateResult × Db :=
  if !(isValidObjectIdStr idStr) then (.invalidId, db)
  else
    let artistData := putArtistData body
    match validateArtist isUrl nowYear artistData with
    | .error _ => (.serverError, db)
    | .ok errs =>
      if !errs.isEmpty then (.validationFailed errs, db)
      else
        match updateFirst (fun d => oidEq idStr d._id)
            (fun d => { d with data := artistData, updatedAt := now }) db.artists with
        | none => (.notFound, db)
        | some artists' => (.updated, { db with artists := artists' })

/-- `PUT /albums/:id` (src/routes/albums.js lines 280–344). -/
def putAlbum (isUrl : String → Bool) (dateParse : String → Option Int) (now : Int)
    (db : Db) (idStr : String) (body : AlbumObj) : UpdateResult × Db :=
  if !(isValidObjectIdStr idStr) then (.invalidId, db)
  else
    let albumData := putAlbumData body
    let errs := validateAlbum isUrl dateParse now albumData
    if !errs.isEmpty then (.validationFailed errs, db)
    else
      match db.artists.find? (fun d => oidOfVal albumData.artist_id == oidCanon d._id) with
      | none => (.refErr "Artist not found", db)
      | some _ =>
        match updateFirst (fun d => oidEq idStr d._id)
            (fun d => { d with data := albumData, updatedAt := now }) db.albums with
        | none => (.notFound, db)
        | some albums' => (.updated, { db with albums := albums' })

/-- `PUT /songs/:id` (src/unnamed/part_006 lines 340–421). -/
def putSong (isUrl : String → Bool) (now : Int) (db : Db) (idStr : String)
    (body : SongObj) : UpdateResult × Db :=
  if !(isValidObjectIdStr idStr) then (.invalidId, db)
  else
    let songData := sanitizeSong body
    let errs := validateSong isUrl songData
    if !errs.isEmpty then (.validationFailed errs, db)
    else
      match db.albums.find? (fun d => oidOfVal songData.album_id == oidCanon d._id) with
      | none => (.refErr "Album not found", db)
      | some _ =>
        match db.artists.find? (fun d => oidOfVal songData.artist_id == oidCanon d._id) with
        | none => (.refErr "Artist not found", db)
        | some _ =>
          match updateFirst (fun d => oidEq idStr d._id)
              (fun d => { d with data := songData, updatedAt := now }) db.songs with
          | none => (.notFound, db)
          | some songs' => (.updated, { db with songs := songs' })

/-- `PUT /playlists/:id` (playlists module lines 640–710). -/
def putPlaylist (isUrl : String → Bool) (now : Int) (db : Db) (idStr : String)
    (body : PlaylistObj) : UpdateResult × Db :=
  if !(isValidObjectIdStr idStr) then (.invalidId, db)
  else
    let playlistData := sanitizePlaylist body
    match validatePlaylist isUrl playlistData with
    | .error _ => (.serverError, db)
    | .ok errs =>
      if !errs.isEmpty then (.validationFailed errs, db)
      else
        let ids := songIdList playlistData.songs
        if !ids.isEmpty && !(playlistSongsExist db ids) then (.refErr "Invalid songs", db)
        else
          match updateFirst (fun d => oidEq idStr d._id)
              (fun d => { d with data := playlistData, updatedAt := now }) db.playlists with
          | none => (.notFound, db)
          | some playlists' => (.updated, { db with playlists := playlists' })

/-! ### `DELETE /artists/:id` and the playlist-membership endpoints -/

/-- Outcome of `DELETE /artists/:id`. -/
inductive DeleteResult where
  | deleted
  | invalidId
  | blocked (albumsCount : Nat)
  | notFound

/-- HTTP status of a delete outcome: the referential guard (`blocked`) is
the 400 `{error: 'Cannot delete artist'}` response. -/
def DeleteResult.status : DeleteResult → Nat
  | .deleted => 200
  | .invalidId => 400
  | .blocked _ => 400
  | .notFound => 404

/-- `DELETE /artists/:id` (src/routes/artists.js lines 292–336): count the
albums whose `artist_id` equals the raw id string; a positive count blocks
the delete before any write. -/
def deleteArtist (db : Db) (idStr : String) : DeleteResult × Db :=
  if !(isValidObjectIdStr idStr) then (.invalidId, db)
  else
    let albumsCount := (db.albums.filter (fun d => bsonEq (.vStr idStr) d.data.artist_id)).length
    if 0 < albumsCount then (.blocked albumsCount, db)
    else
      match deleteFirst (fun d => oidEq idStr d._id) db.artists with
      | none => (.notFound, db)
      | some artists' => (.deleted, { db with artists := artists' })

/-- Outcome of `GET /playlists/:id/songs`. -/
inductive PlistSongsResult where
  | ok (songs : List SongDoc)
  | invalidId
  | notFound
  | serverError

/-- HTTP status of a playlist-songs read. -/
def PlistSongsResult.status : PlistSongsResult → Nat
  | .ok _ => 200
  | .invalidId => 400
  | .notFound => 404
  | .serverError => 500

/-- The order-preserving join of `GET /playlists/:id/songs`:
`playlist.songs.map(id => fetched.find(s => s._id.toString() === id.toString())).filter(defined)`.
The comparison is plain string equality between the canonical (lower-case)
stored `_id` and the raw stored member of `songs[]`. -/
def orderedSongs (stored : List JSVal) (fetched : List SongDoc) : List SongDoc :=
  stored.filterMap (fun songId => fetched.find? (fun song => oidCanon song._id == jsToString songId))

/-- `GET /playlists/:id/songs` (playlists module lines 514–559).  A stored
`songs[]` element rejected by the `ObjectId` constructor throws, hence the
500 branch; a non-array truthy `songs` value also throws at `.map`. -/
def getPlaylistSongs (db : Db) (idStr : String) : PlistSongsResult :=
  if !(isValidObjectIdStr idStr) then .invalidId
  else
    match db.playlists.find? (fun d => oidEq idStr d._id) with
    | none => .notFound
    | some playlist =>
      match playlist.data.songs with
      | .vArr [] => .ok []
      | .vArr xs =>
        if xs.all jsObjectIdIsValid then
          let fetched := db.songs.filter (fun d => xs.any (fun v => oidOfVal v == oidCanon d._id))
          .ok (orderedSongs xs fetched)
        else .serverError
      | v => if truthy v then .serverError else .ok []

/-- Outcome of the playlist-membership mutations. -/
inductive PlaylistMutResult where
  | okMsg (msg : String)
  | invalidPlaylistId
  | invalidSongId
  | songNotFound
  | playlistNotFound
  | conflict
  | serverError

/-- HTTP status of a membership mutation. -/
def PlaylistMutResult.status : PlaylistMutResult → Nat
  | .okMsg _ => 200
  | .invalidPlaylistId => 400
  | .invalidSongId => 400
  | .songNotFound => 404
  | .playlistNotFound => 404
  | .conflict => 409
  | .serverError => 500

/-- `PUT /playlists/:id/songs/:songId` (playlists module lines 713–782):
the song-existence check (404) runs before the playlist fetch and the
already-present check (409, by exact string membership); the raw id string
is `$push`ed.  A non-array `songs` value cannot be produced by the API and
is modelled as the eventual thrown/write error. -/
def putPlaylistSong (now : Int) (db : Db) (idStr songIdStr : String) :
    PlaylistMutResult × Db :=
  if !(isValidObjectIdStr idStr) then (.invalidPlaylistId, db)
  else if !(isValidObjectIdStr songIdStr) then (.invalidSongId, db)
  else
    match db.songs.find? (fun d => oidEq songIdStr d._id) with
    | none => (.songNotFound, db)
    | some _ =>
      match db.playlists.find? (fun d => oidEq idStr d._id) with
      | none => (.playlistNotFound, db)
      | some playlist =>
        match playlist.data.songs with
        | .vArr xs =>
          if xs.any (fun x => match x with | .vStr t => t == songIdStr | _ => false) then
            (.conflict, db)
          else
            match updateFirst (fun d => oidEq idStr d._id)
                (fun d => { d with
                  data := { d.data with songs := .vArr (xs ++ [.vStr songIdStr]) }
                  updatedAt := now }) db.playlists with
            | none => (.playlistNotFound, db)
            | some playlists' =>
              (.okMsg "Song added to playlist successfully", { db with playlists := playlists' })
        | .undef =>
          match updateFirst (fun d => oidEq idStr d._id)
              (fun d => { d with
                data := { d.data with songs := .vArr [.vStr songIdStr] }
                updatedAt := now }) db.playlists with
          | none => (.playlistNotFound, db)
          | some playlists' =>
            (.okMsg "Song added to playlist successfully", { db with playlists := playlists' })
        | _ => (.serverError, db)

/-- `$pull` of a string from the `songs` array: removes every element equal
(as BSON values) to the string. -/
def pullSongs (xs : List JSVal) (s : String) : List JSVal :=
  xs.filter (fun x => !(match x with | .vStr t => t == s | _ => false))

/-- `DELETE /playlists/:id/songs/:songId` (playlists module lines 785–830):
no song-existence check; `$pull` is a no-op when the id is absent and the
response is 200 whenever the playlist exists. -/
def deletePlaylistSong (now : Int) (db : Db) (idStr songIdStr : String) :
    PlaylistMutResult × Db :=
  if !(isValidObjectIdStr idStr) then (.invalidPlaylistId, db)
  else if !(isValidObjectIdStr songIdStr) then (.invalidSongId, db)
  else
    match db.playlists.find? (fun d => oidEq idStr d._id) with
    | none => (.playlistNotFound, db)
    | some playlist =>
      match playlist.data.songs with
      | .vArr xs =>
        match updateFirst (fun d => oidEq idStr d._id)
            (fun d => { d with
              data := { d.data with songs := .vArr (pullSongs xs songIdStr) }
              updatedAt := now }) db.playlists with
        | none => (.playlistNotFound, db)
        | some playlists' =>
          (.okMsg "Song removed from playlist successfully", { db with playlists := playlists' })
      | .undef =>
        match updateFirst (fun d => oidEq idStr d._id)
            (fun d => { d with updatedAt := now }) db.playlists with
        | none => (.playlistNotFound, db)
        | some playlists' =>
          (.okMsg "Song removed from playlist successfully", { db with playlists := playlists' })
      | _ => (.serverError, db)

/-! ### Concrete fixtures for witnesses and counterexamples -/

/-- URL oracle for concrete instances (URL syntax is external; every
concrete record below leaves the optional URL fields empty, so the oracle
is never consulted on them). -/
def urlOracle : String → Bool := fun _ => true

/-- Date-parse oracle for concrete instances: just the two date strings the
fixtures use, on an arbitrary day-count scale. -/
def dateOracle : String → Option Int := fun s =>
  if s == "1900-01-01" then some 0
  else if s == "2020-01-01" then some 43829
  else none

/-- A canonical 24-hex id. -/
def idA : String := "aaaaaaaaaaaaaaaaaaaaaaaa"

/-- A canonical 24-hex id. -/
def idB : String := "bbbbbbbbbbbbbbbbbbbbbbbb"

/-- A canonical 24-hex id. -/
def idC : String := "cccccccccccccccccccccccc"

/-- A canonical 24-hex id. -/
def idD : String := "dddddddddddddddddddddddd"

/-- A valid stored Artist field set named `abc`. -/
def artistAbc : ArtistObj :=
  ⟨.vStr "abc", .vStr "Rock", .vStr "US", .vInt 2000, .vArr [.vStr "X"], .vStr "", .vStr "", .vObj⟩

/-- A valid Artist create body named `a.c` (a name containing the regex
wildcard `.`). -/
def artistDotBody : ArtistObj :=
  ⟨.vStr "a.c", .vStr "Rock", .vStr "US", .vInt 2000, .vArr [.vStr "Y"], .undef, .undef, .undef⟩

/-- Database holding only the artist `abc` under `idA`. -/
def c9db : Db := ⟨[⟨idA, artistAbc, 0, 0⟩], [], [], []⟩

/-- A valid stored Album field set for artist `idA`. -/
def albumOne : AlbumObj :=
  ⟨.vStr "One", .vStr idA, .vStr "2020-01-01", .vStr "Rock", .vInt 10, .vInt 40, .vStr "", .vStr ""⟩

/-- Database with the artist `abc` and one album of that artist: the
dependent-album state of the delete guard. -/
def guardDb : Db := ⟨[⟨idA, artistAbc, 0, 0⟩], [⟨idB, albumOne, 0, 0⟩], [], []⟩

/-- A valid Song create body for album `idB` / artist `idA` with
`track_number: 0`. -/
def songZeroBody : SongObj :=
  ⟨.vStr "T2", .vStr idB, .vStr idA, .vInt 100, .vInt 0, .vStr "Rock", .undef, .undef, .undef⟩

/-- The upper-case spelling of `idA` (a well-formed id denoting the same
ObjectId). -/
def idAupper : String := "AAAAAAAAAAAAAAAAAAAAAAAA"

/-- A valid stored Song field set (album `idB`, artist `idA`). -/
def songT : SongObj :=
  ⟨.vStr "T", .vStr idB, .vStr idA, .vInt 100, .vNull, .vStr "Rock", .vStr "", .vStr "", .vArr []⟩

/-- A second valid stored Song field set. -/
def songU : SongObj :=
  ⟨.vStr "U", .vStr idB, .vStr idA, .vInt 120, .vNull, .vStr "Rock", .vStr "", .vStr "", .vArr []⟩

/-- A stored Playlist whose `songs[]` holds the upper-case spelling of the
stored song's id. -/
def plUpper : PlaylistObj :=
  ⟨.vStr "P", .vStr "alice", .vStr "", .vArr [.vStr idAupper], .vArr [], .vBool true, .vStr ""⟩

/--idA's song exists, but the playlist references it in upper case. -/
def c6db : Db := ⟨[], [], [⟨idA, songT, 0, 0⟩], [⟨idC, plUpper, 0, 0⟩]⟩

/-- A playlist listing the two songs in reverse storage order with a
dangling id between them. -/
def plOrder : PlaylistObj :=
  ⟨.vStr "Q", .vStr "alice", .vStr "", .vArr [.vStr idB, .vStr idD, .vStr idA],
   .vArr [], .vBool true, .vStr ""⟩

/-- Two songs plus the reordering playlist. -/
def c6wdb : Db :=
  ⟨[], [], [⟨idA, songT, 0, 0⟩, ⟨idB, songU, 1, 1⟩], [⟨idC, plOrder, 0, 0⟩]⟩

/-- A stored Playlist holding exactly the song id `idA`. -/
def plA : PlaylistObj :=
  ⟨.vStr "R", .vStr "alice", .vStr "", .vArr [.vStr idA], .vArr [], .vBool true, .vStr ""⟩

/-- A playlist that references song `idA` while the songs collection is
empty (the song was deleted after being added — reachable because
`DELETE /songs/:id` has no playlist guard). -/
def c8db : Db := ⟨[], [], [], [⟨idC, plA, 0, 0⟩]⟩

/-- Same playlist, with the referenced song still stored. -/
def c8wdb : Db := ⟨[], [], [⟨idA, songT, 0, 0⟩], [⟨idC, plA, 0, 0⟩]⟩

/-- The database with all four collections empty. -/
def emptyDb : Db := ⟨[], [], [], []⟩

/-- A playlist create body whose `songs[]` holds one malformed id. -/
def plBadSongBody : PlaylistObj :=
  ⟨.vStr "Road Trip", .vStr "alice", .undef, .vArr [.vStr "notanid"], .undef, .undef, .undef⟩

/-- A song create body whose `album_id` is malformed. -/
def badRefSongBody : SongObj :=
  ⟨.vStr "S", .vStr "nope", .vStr idA, .vInt 100, .undef, .vStr "Rock", .undef, .undef, .undef⟩

/-- A playlist create body referencing the stored song `idA`. -/
def plGoodBody : PlaylistObj :=
  ⟨.vStr "Mix", .vStr "bob", .undef, .vArr [.vStr idA], .undef, .undef, .undef⟩

/-- A second valid stored Artist field set, named `xyz`. -/
def artistXyz : ArtistObj :=
  ⟨.vStr "xyz", .vStr "Jazz", .vStr "UK", .vInt 1990, .vArr [.vStr "Z"], .vStr "", .vStr "", .vObj⟩

/-- A body that (re)names an artist `abc` — the stored `idA` artist's
name. -/
def artistAbcBody : ArtistObj :=
  ⟨.vStr "abc", .vStr "Rock", .vStr "US", .vInt 2000, .vArr [.vStr "Z"], .undef, .undef, .undef⟩

/-- Two artists, `abc` and `xyz`. -/
def c7adb : Db := ⟨[⟨idA, artistAbc, 0, 0⟩, ⟨idB, artistXyz, 0, 0⟩], [], [], []⟩

/-- A second valid stored Album of artist `idA`, titled `Two`. -/
def albumTwo : AlbumObj :=
  ⟨.vStr "Two", .vStr idA, .vStr "2020-01-01", .vStr "Rock", .vInt 8, .vInt 35, .vStr "", .vStr ""⟩

/-- A body that (re)titles an album `One` for artist `idA` — colliding with
the stored `idB` album. -/
def albumOneBody : AlbumObj :=
  ⟨.vStr "One", .vStr idA, .vStr "2020-01-01", .vStr "Rock", .vInt 10, .vInt 40, .undef, .undef⟩

/-- One artist with two albums, `One` and `Two`. -/
def c7bdb : Db := ⟨[⟨idA, artistAbc, 0, 0⟩], [⟨idB, albumOne, 0, 0⟩, ⟨idC, albumTwo, 0, 0⟩], [], []⟩

/-- A body that (re)titles a song `T` on album `idB` — colliding with the
stored `idC` song. -/
def songTBody : SongObj :=
  ⟨.vStr "T", .vStr idB, .vStr idA, .vInt 120, .undef, .vStr "Rock", .undef, .undef, .undef⟩

/-- Artist, album and two songs `T` and `U` on the same album. -/
def c7sdb : Db :=
  ⟨[⟨idA, artistAbc, 0, 0⟩], [⟨idB, albumOne, 0, 0⟩],
   [⟨idC, songT, 0, 0⟩, ⟨idD, songU, 0, 0⟩], []⟩

/-- A stored Playlist named `P` by `alice`. -/
def plP : PlaylistObj :=
  ⟨.vStr "P", .vStr "alice", .vStr "", .vArr [], .vArr [], .vBool true, .vStr ""⟩

/-- A stored Playlist named `Q` by `alice`. -/
def plQ : PlaylistObj :=
  ⟨.vStr "Q", .vStr "alice", .vStr "", .vArr [], .vArr [], .vBool true, .vStr ""⟩

/-- A body that (re)names a playlist `P` for creator `alice` — colliding
with the stored `idA` playlist. -/
def plRenameBody : PlaylistObj :=
  ⟨.vStr "P", .vStr "alice", .undef, .undef, .undef, .undef, .undef⟩

/-- Two playlists by the same creator. -/
def c7pdb : Db := ⟨[], [], [], [⟨idA, plP, 0, 0⟩, ⟨idB, plQ, 0, 0⟩]⟩

/-- A three-artist database for the pagination witness. -/
def c1db : Db :=
  ⟨[⟨idA, artistAbc, 0, 0⟩, ⟨idB, artistAbc, 1, 1⟩, ⟨idC, artistAbc, 2, 2⟩], [], [], []⟩

/-- First page (limit 2) of `c1db`. -/
def c1items : List ArtistDoc := [⟨idA, artistAbc, 0, 0⟩, ⟨idB, artistAbc, 1, 1⟩]

/-- Its pagination object. -/
def c1pg : Pagin := ⟨1, 2, 3, true, false⟩

/-- An Artist body with an empty genre (a violated required rule) and a
non-string members entry (which makes `validateArtist` throw instead of
returning a violations list). -/
def c5bad : ArtistObj :=
  ⟨.vStr "A", .vStr "", .vStr "US", .vInt 2000, .vArr [.vInt 1], .vStr "", .vStr "", .vObj⟩

/-- The valid artist field set `abc` with its required `name` unset. -/
def c5rm : ArtistObj :=
  ⟨.undef, .vStr "Rock", .vStr "US", .vInt 2000, .vArr [.vStr "X"], .vStr "", .vStr "", .vObj⟩

end MusicApi

namespace MusicApi

/-- C2: on each of the four collections, a parsed `limit` above 100 is
rejected with the 400 `Invalid limit` response before any document is
consulted — for every database, including the empty one — and never
clamped: the response carries no items. -/
theorem invalid_limit_rejected (db : Db) (limitQ : Option String)
    (h : 100 < parseIntOr limitQ 10) :
    (∀ g c pq sb so, artistsList db g c pq limitQ sb so = .invalidLimit) ∧
    (∀ g a y pq sb so, albumsList db g a y pq limitQ sb so = .invalidLimit) ∧
    (∀ g a al dmin dmax pq sb so, songsList db g a al dmin dmax pq limitQ sb so = .invalidLimit) ∧
    (∀ cr t ip pq sb so, playlistsList db cr t ip pq limitQ sb so = .invalidLimit) ∧
    (ListResp.invalidLimit : ListResp ArtistDoc).status = 400 := by
  refine ⟨?_, ?_, ?_, ?_, rfl⟩ <;> intros <;>
    simp [artistsList, albumsList, songsList, playlistsList, listCore, h]

/-- C2 witness: `GET /artists?limit=150` on the empty database is the 400
`Invalid limit` response. -/
theorem invalid_limit_rejected_witness :
    100 < parseIntOr (some "150") 10 ∧
    artistsList ⟨[], [], [], []⟩ none none none (some "150") none none = .invalidLimit := by
  have h : 100 < parseIntOr (some "150") 10 := by decide
  exact ⟨h, (invalid_limit_rejected ⟨[], [], [], []⟩ (some "150") h).1 none none none none none⟩

/-- C4: `DELETE /artists/:id` with a well-formed id and at least one album
whose `artist_id` equals that id answers 400 and leaves the entire database
(in particular the artists and albums collections) untouched. -/
theorem artist_delete_guard (db : Db) (idStr : String)
    (hid : isValidObjectIdStr idStr = true)
    (hdep : ∃ d ∈ db.albums, d.data.artist_id = JSVal.vStr idStr) :
    (deleteArtist db idStr).1.status = 400 ∧ (deleteArtist db idStr).2 = db := by
  obtain ⟨d, hd, he⟩ := hdep
  have hmem : d ∈ db.albums.filter (fun d => bsonEq (.vStr idStr) d.data.artist_id) :=
    List.mem_filter.mpr ⟨hd, by simp [bsonEq, he]⟩
  have hcount : 0 < (db.albums.filter (fun d => bsonEq (.vStr idStr) d.data.artist_id)).length :=
    List.length_pos.mpr (List.ne_nil_of_mem hmem)
  refine ⟨?_, ?_⟩ <;> simp [deleteArtist, hid, hcount, DeleteResult.status]

/-- C4 witness: deleting artist `idA` while `guardDb` holds one album with
`artist_id = idA` is blocked with 400 and changes nothing. -/
theorem artist_delete_guard_witness :
    isValidObjectIdStr idA = true ∧
    (deleteArtist guardDb idA).1.status = 400 ∧ (deleteArtist guardDb idA).2 = guardDb := by
  have h := artist_delete_guard guardDb idA (by decide)
    ⟨⟨idB, albumOne, 0, 0⟩, by simp [guardDb], rfl⟩
  exact ⟨by decide, h.1, h.2⟩

/-- Fields of the pagination object served with any 200 listing response. -/
theorem listCore_ok_pagin {α : Type} (matching : List α) (page limit : Int)
    (items : List α) (pg : Pagin) (h : listCore matching page limit = .ok items pg) :
    pg.currentPage = page ∧
    pg.totalItems = (matching.length : Int) ∧
    pg.totalPages = ceilDivJS (matching.length : Int) limit ∧
    pg.hasNext = decide (page * limit < (matching.length : Int)) ∧
    pg.hasPrev = decide (1 < page) := by
  simp only [listCore] at h
  split at h
  · simp at h
  · split at h
    · simp at h
    · rw [ListResp.ok.injEq] at h
      obtain ⟨-, hpg⟩ := h
      subst hpg
      exact ⟨rfl, rfl, rfl, rfl, rfl⟩

/-- Sorting permutes, so it preserves the document count. -/
theorem applySortOpt_length {δ : Type} (proj : String → Option (δ → JSVal))
    (sb so : Option String) (docs : List δ) :
    (applySortOpt proj sb so docs).length = docs.length := by
  unfold applySortOpt
  split
  · rfl
  · split
    · rfl
    · unfold mongoSort
      split <;> exact List.length_mergeSort _

/-- A list served as page `p ≥ 1` with limit `1 ≤ L ≤ 100`: the slice of the
matching documents, with `hasNext` deciding whether later documents
remain. -/
theorem listCore_at_page {α : Type} (matching : List α) (L : Int) (p : Nat)
    (hL : 1 ≤ L) (hL100 : L ≤ 100) (hp : 1 ≤ p) :
    listCore matching (p : Int) L
      = .ok ((matching.drop ((p - 1) * L.toNat)).take L.toNat)
          ⟨(p : Int), ceilDivJS (matching.length : Int) L, (matching.length : Int),
           decide (p * L.toNat < matching.length), decide (1 < p)⟩ := by
  have hL' : ((L.toNat : Nat) : Int) = L := by omega
  have hskip0 : ¬(((p : Int) - 1) * L < 0) := by
    have h1 : 0 ≤ ((p : Int) - 1) := by omega
    have := mul_nonneg h1 (by omega : (0 : Int) ≤ L)
    omega
  have hsk : ((((p : Int) - 1) * L).toNat) = (p - 1) * L.toNat := by
    have h1 : (((p - 1) * L.toNat : Nat) : Int) = ((p : Int) - 1) * L := by
      push_cast [hp]
      rw [hL']
    rw [← h1, Int.toNat_natCast]
  have habs : L.natAbs = L.toNat := by omega
  have hne : (L == 0) = false := by
    have : L ≠ 0 := by omega
    simpa using this
  have hnext : decide ((p : Int) * L < (matching.length : Int))
      = decide (p * L.toNat < matching.length) := by
    have h1 : (((p * L.toNat) : Nat) : Int) = (p : Int) * L := by
      push_cast
      rw [hL']
    apply decide_eq_decide.mpr
    rw [← h1]
    omega
  have hprev : decide (1 < (p : Int)) = decide (1 < p) := by
    apply decide_eq_decide.mpr
    omega
  simp only [listCore, mongoSlice, hne, if_neg (by omega : ¬(100 < L)), if_neg hskip0,
    Bool.false_eq_true, if_false, hsk, habs, hnext, hprev]

/-- C1: on every 200 listing response of any of the four collections,
`totalItems` is the number of documents matching the filter,
`totalPages = ceil(totalItems / limit)` (the `ceilDivJS` value, pinned down
by its two defining inequalities in the fifth conjunct), `hasNext` is
`page * limit < totalItems`, and `hasPrev` is `page > 1`; and — for any
matching set and any accepted positive limit — page `p` serves exactly the
`p`-th slice with `hasNext` true exactly while documents remain, so the
client sweep that starts at page 1 and stops when `hasNext` is false
collects item lists whose lengths sum to `totalItems`. -/
theorem listing_pagination :
    (∀ db g c pq lq sb so items pg, artistsList db g c pq lq sb so = .ok items pg →
      pg.totalItems = ((db.artists.filter (artistsQuery g c)).length : Int) ∧
      pg.totalPages
        = ceilDivJS ((db.artists.filter (artistsQuery g c)).length : Int) (parseIntOr lq 10) ∧
      pg.hasNext = decide (parseIntOr pq 1 * parseIntOr lq 10 < pg.totalItems) ∧
      pg.hasPrev = decide (1 < parseIntOr pq 1)) ∧
    (∀ db g a y pq lq sb so items pg, albumsList db g a y pq lq sb so = .ok items pg →
      pg.totalItems = ((db.albums.filter (albumsQuery g a y)).length : Int) ∧
      pg.totalPages
        = ceilDivJS ((db.albums.filter (albumsQuery g a y)).length : Int) (parseIntOr lq 10) ∧
      pg.hasNext = decide (parseIntOr pq 1 * parseIntOr lq 10 < pg.totalItems) ∧
      pg.hasPrev = decide (1 < parseIntOr pq 1)) ∧
    (∀ db g a al dmin dmax pq lq sb so items pg,
      songsList db g a al dmin dmax pq lq sb so = .ok items pg →
      pg.totalItems = ((db.songs.filter (songsQuery g a al dmin dmax)).length : Int) ∧
      pg.totalPages
        = ceilDivJS ((db.songs.filter (songsQuery g a al dmin dmax)).length : Int)
            (parseIntOr lq 10) ∧
      pg.hasNext = decide (parseIntOr pq 1 * parseIntOr lq 10 < pg.totalItems) ∧
      pg.hasPrev = decide (1 < parseIntOr pq 1)) ∧
    (∀ db cr t ip pq lq sb so items pg, playlistsList db cr t ip pq lq sb so = .ok items pg →
      pg.totalItems = ((db.playlists.filter (playlistsQuery cr t ip)).length : Int) ∧
      pg.totalPages
        = ceilDivJS ((db.playlists.filter (playlistsQuery cr t ip)).length : Int)
            (parseIntOr lq 10) ∧
      pg.hasNext = decide (parseIntOr pq 1 * parseIntOr lq 10 < pg.totalItems) ∧
      pg.hasPrev = decide (1 < parseIntOr pq 1)) ∧
    (∀ (n : Nat) (L : Int), 1 ≤ L →
      (n : Int) ≤ ceilDivJS n L * L ∧ (ceilDivJS n L - 1) * L < (n : Int)) ∧
    (∀ (α : Type) (matching : List α) (L : Int) (p : Nat), 1 ≤ L → L ≤ 100 → 1 ≤ p →
      listCore matching (p : Int) L
        = .ok ((matching.drop ((p - 1) * L.toNat)).take L.toNat)
            ⟨(p : Int), ceilDivJS (matching.length : Int) L, (matching.length : Int),
             decide (p * L.toNat < matching.length), decide (1 < p)⟩) ∧
    (∀ (α : Type) (matching : List α) (L : Int), 1 ≤ L →
      ((pageSweep matching L.toNat 1).map List.length).sum = matching.length) := by
  have hperColl : ∀ {δ : Type} (docs : List δ) (proj : String → Option (δ → JSVal))
      (pq lq sb so : Option String) (items : List δ) (pg : Pagin),
      listCore (applySortOpt proj (qparam sb) so docs) (parseIntOr pq 1) (parseIntOr lq 10)
          = .ok items pg →
      pg.totalItems = (docs.length : Int) ∧
      pg.totalPages = ceilDivJS (docs.length : Int) (parseIntOr lq 10) ∧
      pg.hasNext = decide (parseIntOr pq 1 * parseIntOr lq 10 < pg.totalItems) ∧
      pg.hasPrev = decide (1 < parseIntOr pq 1) := by
    intro δ docs proj pq lq sb so items pg h
    obtain ⟨h0, h1, h2, h3, h4⟩ := listCore_ok_pagin _ _ _ _ _ h
    rw [applySortOpt_length] at h1 h2 h3
    exact ⟨h1, h2, by rw [h3, h1], h4⟩
  refine ⟨?_, ?_, ?_, ?_, fun n L hL => ceilDivJS_bounds n L hL,
    fun α m L p h1 h2 h3 => listCore_at_page m L p h1 h2 h3, ?_⟩
  · intro db g c pq lq sb so items pg h
    exact hperColl _ _ pq lq sb so items pg h
  · intro db g a y pq lq sb so items pg h
    exact hperColl _ _ pq lq sb so items pg h
  · intro db g a al dmin dmax pq lq sb so items pg h
    exact hperColl _ _ pq lq sb so items pg h
  · intro db cr t ip pq lq sb so items pg h
    exact hperColl _ _ pq lq sb so items pg h
  · intro α matching L hL
    have hk : 0 < L.toNat := by omega
    have := pageSweep_len_sum matching L.toNat 1 hk le_rfl
    simpa using this

/-- C1 witness: a three-artist database listed with `page=1&limit=2`
satisfies the formulas, and the sweep with limit 2 collects `2 + 1 = 3`
items. -/
theorem listing_pagination_witness :
    artistsList c1db none none (some "1") (some "2") none none = .ok c1items c1pg ∧
    c1pg.totalItems = ((c1db.artists.filter (artistsQuery none none)).length : Int) ∧
    c1pg.totalPages
      = ceilDivJS ((c1db.artists.filter (artistsQuery none none)).length : Int)
          (parseIntOr (some "2") 10) ∧
    ((pageSweep c1db.artists ((2 : Int)).toNat 1).map List.length).sum = c1db.artists.length := by
  have hok : artistsList c1db none none (some "1") (some "2") none none = .ok c1items c1pg := rfl
  obtain ⟨h1, -, -, -, -, -, hsweep⟩ := listing_pagination
  have hf := h1 c1db none none (some "1") (some "2") none none c1items c1pg hok
  exact ⟨hok, hf.1, hf.2.1, hsweep ArtistDoc c1db.artists 2 (by norm_num)⟩

/-- `find?` respects predicates that agree on the list's members. -/
theorem find?_congr_mem {α : Type} {p q : α → Bool} (l : List α)
    (h : ∀ a ∈ l, p a = q a) : l.find? p = l.find? q := by
  induction l with
  | nil => rfl
  | cons a l ih =>
    simp only [List.find?_cons, h a (by simp)]
    cases hq : q a
    · exact ih (fun b hb => h b (by simp [hb]))
    · rfl

/-- Restricting `find?` to a filter that keeps every hit changes nothing. -/
theorem find?_filter_of_imp {α : Type} {p q : α → Bool} (l : List α)
    (h : ∀ a ∈ l, p a = true → q a = true) : (l.filter q).find? p = l.find? p := by
  induction l with
  | nil => rfl
  | cons a l ih =>
    have htail := ih (fun b hb => h b (by simp [hb]))
    by_cases hq : q a = true
    · simp only [List.filter_cons, hq, if_true, List.find?_cons]
      cases hp : p a
      · exact htail
      · rfl
    · have hp : p a = false := by
        cases hpa : p a
        · rfl
        · exact absurd (h a (by simp) hpa) hq
      simp only [List.filter_cons, hq, if_false, List.find?_cons, hp, Bool.false_eq_true]
      exact htail

/-- C6 counterexample to the claim as stated: the playlist's single stored
id denotes (case-insensitively, i.e. as an ObjectId) the stored song — it
resolves — yet `GET /playlists/:id/songs` answers `200 []`, omitting it,
because the order-restoring join compares id strings case-sensitively. -/
theorem playlist_songs_order_cx :
    getPlaylistSongs c6db idC = .ok [] ∧
    plUpper.songs = .vArr [.vStr idAupper] ∧
    c6db.songs = [⟨idA, songT, 0, 0⟩] ∧
    oidEq idAupper idA = true ∧
    idAupper ≠ idA := by
  exact ⟨rfl, rfl, rfl, by decide, by decide⟩

/-- C6 (amended): for an existing playlist whose stored `songs[]` entries
are well-formed id strings, over a store with canonical (lower-case) song
ids, the response lists — in exactly the stored order, with no reordering
or duplication — for each entry the first song whose id is literally equal
to it; entries with no literal match (dangling ids, or case-variant
spellings of existing ids) are silently dropped, and an empty `songs[]`
yields `200 []`. -/
theorem playlist_songs_order (db : Db) (idStr : String) (pl : PlaylistDoc) (xs : List JSVal)
    (hid : isValidObjectIdStr idStr = true)
    (hfind : db.playlists.find? (fun d => oidEq idStr d._id) = some pl)
    (hsongs : pl.data.songs = .vArr xs)
    (hxs : ∀ v ∈ xs, ∃ s, v = JSVal.vStr s ∧ isValidObjectIdStr s = true)
    (hcanon : ∀ d ∈ db.songs, oidCanon d._id = d._id) :
    getPlaylistSongs db idStr
      = .ok (xs.filterMap (fun v => db.songs.find? (fun song => song._id == jsToString v))) := by
  have hval : xs.all jsObjectIdIsValid = true := by
    rw [List.all_eq_true]
    intro v hv
    obtain ⟨s, rfl, hs⟩ := hxs v hv
    simpa [jsObjectIdIsValid] using hs
  have hjoin : orderedSongs xs
        (db.songs.filter (fun d => xs.any (fun v => oidOfVal v == oidCanon d._id)))
      = xs.filterMap (fun v => db.songs.find? (fun song => song._id == jsToString v)) := by
    unfold orderedSongs
    apply List.filterMap_congr
    intro v hv
    obtain ⟨s, rfl, -⟩ := hxs v hv
    have hstep1 : (db.songs.filter (fun d => xs.any (fun v => oidOfVal v == oidCanon d._id))).find?
          (fun song => oidCanon song._id == jsToString (JSVal.vStr s))
        = db.songs.find? (fun song => oidCanon song._id == jsToString (JSVal.vStr s)) := by
      apply find?_filter_of_imp
      intro d hd hp
      have hps : oidCanon d._id = s := by simpa [jsToString] using hp
      have hds : d._id = s := by rw [← hps, hcanon d hd]
      rw [List.any_eq_true]
      refine ⟨.vStr s, hv, ?_⟩
      have heq : oidOfVal (JSVal.vStr s) = oidCanon d._id := by
        show lowerStr s = oidCanon d._id
        rw [← hds]
        rfl
      simp [heq]
    rw [hstep1]
    apply find?_congr_mem
    intro d hd
    rw [hcanon d hd]
  cases xs with
  | nil =>
    simp [getPlaylistSongs, hid, hfind, hsongs]
  | cons x rest =>
    simp only [getPlaylistSongs, hid, Bool.not_true, Bool.false_eq_true, if_false, hfind,
      hsongs, hval, if_true]
    exact congrArg PlistSongsResult.ok hjoin

/-- C6 witness: the reordering playlist of `c6wdb` (stored order
`[idB, idD, idA]` with `idD` dangling) is served as the `idB` song then the
`idA` song — the stored order with the dangling id dropped. -/
theorem playlist_songs_order_witness :
    getPlaylistSongs c6wdb idC
      = .ok ([JSVal.vStr idB, .vStr idD, .vStr idA].filterMap
          (fun v => c6wdb.songs.find? (fun song => song._id == jsToString v))) ∧
    getPlaylistSongs c6wdb idC = .ok [⟨idB, songU, 1, 1⟩, ⟨idA, songT, 0, 0⟩] := by
  refine ⟨playlist_songs_order c6wdb idC ⟨idC, plOrder, 0, 0⟩ _ (by decide) rfl rfl ?_ ?_, rfl⟩
  · intro v hv
    simp only [List.mem_cons, List.not_mem_nil, or_false] at hv
    rcases hv with h | h | h <;> subst h
    · exact ⟨idB, rfl, by decide⟩
    · exact ⟨idD, rfl, by decide⟩
    · exact ⟨idA, rfl, by decide⟩
  · intro d hd
    simp only [c6wdb, List.mem_cons, List.not_mem_nil, or_false] at hd
    rcases hd with h | h <;> subst h <;> decide

/-- Decompose a successful `find?`: a prefix with no hit, then the hit. -/
theorem find?_some_decomp {α : Type} {p : α → Bool} :
    ∀ {l : List α} {d : α}, l.find? p = some d →
      ∃ pre suf, l = pre ++ d :: suf ∧ (∀ x ∈ pre, p x = false) ∧ p d = true := by
  intro l
  induction l with
  | nil => intro d h; simp at h
  | cons a l ih =>
    intro d h
    rw [List.find?_cons] at h
    cases hp : p a with
    | true =>
      rw [hp] at h
      cases h
      exact ⟨[], l, by simp, by simp, hp⟩
    | false =>
      rw [hp] at h
      obtain ⟨pre, suf, hl, hpre, hd⟩ := ih h
      exact ⟨a :: pre, suf, by simp [hl], by
        intro x hx
        rcases List.mem_cons.mp hx with rfl | hx
        · exact hp
        · exact hpre x hx, hd⟩

/-- `find?` skips a hit-free prefix. -/
theorem find?_append_none {α : Type} {p : α → Bool} (pre rest : List α)
    (h : ∀ x ∈ pre, p x = false) : (pre ++ rest).find? p = rest.find? p := by
  induction pre with
  | nil => rfl
  | cons a pre ih =>
    simp only [List.cons_append, List.find?_cons, h a (by simp)]
    exact ih (fun x hx => h x (by simp [hx]))

/-- `updateOne` on a list headed by a non-match. -/
theorem updateFirst_cons_neg {α : Type} {p : α → Bool} {f : α → α} (a : α) (l : List α)
    (h : p a = false) :
    updateFirst p f (a :: l) = (updateFirst p f l).map (fun r => a :: r) := by
  simp [updateFirst, h]

/-- `updateOne` on a list headed by a match. -/
theorem updateFirst_cons_pos {α : Type} {p : α → Bool} {f : α → α} (a : α) (l : List α)
    (h : p a = true) : updateFirst p f (a :: l) = some (f a :: l) := by
  simp [updateFirst, h]

/-- `updateOne` skips a hit-free prefix. -/
theorem updateFirst_append_none {α : Type} {p : α → Bool} {f : α → α} (pre rest : List α)
    (h : ∀ x ∈ pre, p x = false) :
    updateFirst p f (pre ++ rest) = (updateFirst p f rest).map (fun l => pre ++ l) := by
  induction pre with
  | nil => simp [Option.map_id']
  | cons a pre ih =>
    rw [List.cons_append, updateFirst_cons_neg a _ (h a (by simp)),
      ih (fun x hx => h x (by simp [hx])), Option.map_map]
    rfl

/-- C8 counterexample to the claim as stated: the song id `idA` is already
present in the playlist's `songs[]`, yet `PUT /playlists/:id/songs/:songId`
answers 404 — not 409 — because the song document was deleted from the
songs collection and the song-existence check runs first. -/
theorem playlist_put_present_cx :
    (putPlaylistSong 9 c8db idC idA).1 = .songNotFound ∧
    (putPlaylistSong 9 c8db idC idA).1.status = 404 ∧
    plA.songs = .vArr [.vStr idA] ∧
    c8db.songs = [] := ⟨rfl, rfl, rfl, rfl⟩

/-- C8 (amended): `DELETE /playlists/:id/songs/:songId` is idempotent on
playlist `songs[]` state — both of two successive removals answer 200 and
the second leaves every playlist's `songs[]` as the first did.  By
contrast, `PUT /playlists/:id/songs/:songId` answers 409 and changes
nothing when the id is already present in `songs[]` **and** the referenced
song still exists in the songs collection; when it no longer exists the PUT
answers 404 (and also changes nothing). -/
theorem playlist_membership_mutation :
    (∀ (db : Db) (now1 now2 : Int) (idStr sid : String) (pl : PlaylistDoc) (xs : List JSVal),
      isValidObjectIdStr idStr = true → isValidObjectIdStr sid = true →
      db.playlists.find? (fun d => oidEq idStr d._id) = some pl →
      pl.data.songs = .vArr xs →
      (deletePlaylistSong now1 db idStr sid).1.status = 200 ∧
      (deletePlaylistSong now2 (deletePlaylistSong now1 db idStr sid).2 idStr sid).1.status
        = 200 ∧
      ((deletePlaylistSong now2 (deletePlaylistSong now1 db idStr sid).2 idStr sid).2.playlists.map
          (fun d => d.data.songs))
        = ((deletePlaylistSong now1 db idStr sid).2.playlists.map (fun d => d.data.songs))) ∧
    (∀ (db : Db) (now : Int) (idStr sid : String) (pl : PlaylistDoc) (xs : List JSVal),
      isValidObjectIdStr idStr = true → isValidObjectIdStr sid = true →
      (db.songs.find? (fun d => oidEq sid d._id)).isSome = true →
      db.playlists.find? (fun d => oidEq idStr d._id) = some pl →
      pl.data.songs = .vArr xs →
      xs.any (fun x => match x with | .vStr t => t == sid | _ => false) = true →
      putPlaylistSong now db idStr sid = (.conflict, db)) ∧
    (∀ (db : Db) (now : Int) (idStr sid : String),
      isValidObjectIdStr idStr = true → isValidObjectIdStr sid = true →
      db.songs.find? (fun d => oidEq sid d._id) = none →
      putPlaylistSong now db idStr sid = (.songNotFound, db)) := by
  refine ⟨?_, ?_, ?_⟩
  · intro db now1 now2 idStr sid pl xs hid hsid hfind hsongs
    obtain ⟨pre, suf, hdecomp, hpre, hp⟩ := find?_some_decomp hfind
    set f1 : PlaylistDoc → PlaylistDoc := fun d =>
      { d with data := { d.data with songs := .vArr (pullSongs xs sid) }, updatedAt := now1 }
      with hf1
    have hup1 : updateFirst (fun d => oidEq idStr d._id) f1 db.playlists
        = some (pre ++ f1 pl :: suf) := by
      rw [hdecomp, updateFirst_append_none pre _ hpre]
      simp [updateFirst, hp]
    have hr1 : deletePlaylistSong now1 db idStr sid
        = (.okMsg "Song removed from playlist successfully",
           { db with playlists := pre ++ f1 pl :: suf }) := by
      simp only [deletePlaylistSong, hid, hsid, Bool.not_true, Bool.false_eq_true, if_false,
        hfind, hsongs, hup1]
    have hfind2 : (pre ++ f1 pl :: suf).find? (fun d => oidEq idStr d._id) = some (f1 pl) := by
      rw [find?_append_none pre _ hpre, List.find?_cons]
      have : oidEq idStr (f1 pl)._id = true := hp
      rw [this]
    have hsongs2 : (f1 pl).data.songs = .vArr (pullSongs xs sid) := rfl
    set f2 : PlaylistDoc → PlaylistDoc := fun d =>
      { d with data := { d.data with songs := .vArr (pullSongs (pullSongs xs sid) sid) }
               updatedAt := now2 }
      with hf2
    have hup2 : updateFirst (fun d => oidEq idStr d._id) f2 (pre ++ f1 pl :: suf)
        = some (pre ++ f2 (f1 pl) :: suf) := by
      rw [updateFirst_append_none pre _ hpre]
      simp [updateFirst, hp]
    have hr2 : deletePlaylistSong now2 { db with playlists := pre ++ f1 pl :: suf } idStr sid
        = (.okMsg "Song removed from playlist successfully",
           { db with playlists := pre ++ f2 (f1 pl) :: suf }) := by
      simp only [deletePlaylistSong, hid, hsid, Bool.not_true, Bool.false_eq_true, if_false,
        hfind2, hsongs2, hup2]
    have hpull : pullSongs (pullSongs xs sid) sid = pullSongs xs sid := by
      unfold pullSongs
      rw [List.filter_filter]
      simp
    refine ⟨by rw [hr1]; rfl, ?_, ?_⟩
    · simp only [hr1, Prod.snd]
      simp only [hr2]
      rfl
    · simp only [hr1, Prod.snd]
      simp only [hr2, Prod.snd]
      simp only [List.map_append, List.map_cons]
      rw [hpull]
  · intro db now idStr sid pl xs hid hsid hsome hfind hsongs hmem
    obtain ⟨s, hs⟩ := Option.isSome_iff_exists.mp hsome
    simp only [putPlaylistSong, hid, hsid, Bool.not_true, Bool.false_eq_true, if_false,
      hs, hfind, hsongs, hmem, if_true]
  · intro db now idStr sid hid hsid hnone
    simp only [putPlaylistSong, hid, hsid, Bool.not_true, Bool.false_eq_true, if_false, hnone]

/-- C8 witness: on `c8wdb` (song stored, id present in the playlist) the
PUT answers 409 and changes nothing, and two successive removals both
answer 200 leaving the same `songs[]` state. -/
theorem playlist_membership_mutation_witness :
    putPlaylistSong 9 c8wdb idC idA = (.conflict, c8wdb) ∧
    (deletePlaylistSong 8 c8wdb idC idA).1.status = 200 ∧
    (deletePlaylistSong 9 (deletePlaylistSong 8 c8wdb idC idA).2 idC idA).1.status = 200 ∧
    ((deletePlaylistSong 9 (deletePlaylistSong 8 c8wdb idC idA).2 idC idA).2.playlists.map
        (fun d => d.data.songs))
      = ((deletePlaylistSong 8 c8wdb idC idA).2.playlists.map (fun d => d.data.songs)) := by
  obtain ⟨ha, hb, -⟩ := playlist_membership_mutation
  have h1 := ha c8wdb 8 9 idC idA ⟨idC, plA, 0, 0⟩ [.vStr idA] (by decide) (by decide) rfl rfl
  have h2 := hb c8wdb 9 idC idA ⟨idC, plA, 0, 0⟩ [.vStr idA] (by decide) (by decide) rfl rfl rfl
    (by decide)
  exact ⟨h2, h1.1, h1.2.1, h1.2.2⟩

/-- When the `$in` count check of the playlist handlers passes over a store
whose canonical ids are pairwise distinct (MongoDB's `_id` unique index),
every requested id resolves to a stored song. -/
theorem playlistSongsExist_resolves (db : Db) (ids : List JSVal)
    (hnodup : (db.songs.map (fun d => oidCanon d._id)).Nodup)
    (h : playlistSongsExist db ids = true) :
    ∀ v ∈ ids, ∃ d ∈ db.songs, oidOfVal v = oidCanon d._id := by
  intro v hv
  set q : SongDoc → Bool := fun d => ids.any (fun v => oidOfVal v == oidCanon d._id) with hq
  set F := db.songs.filter q with hF
  have hlen : F.length = ids.length := by
    have := h
    unfold playlistSongsExist at this
    simpa [← hF, ← hq] using this
  set keysF := F.map (fun d => oidCanon d._id) with hkeys
  have hkeysNodup : keysF.Nodup :=
    ((List.filter_sublist db.songs).map (fun d => oidCanon d._id)).nodup hnodup
  have hsub : keysF.toFinset ⊆ (ids.map oidOfVal).toFinset := by
    intro a ha
    rw [List.mem_toFinset] at ha
    obtain ⟨d, hdF, rfl⟩ := List.mem_map.mp ha
    have hdq : q d = true := (List.mem_filter.mp hdF).2
    rw [hq, List.any_eq_true] at hdq
    obtain ⟨w, hw, hww⟩ := hdq
    rw [List.mem_toFinset, List.mem_map]
    exact ⟨w, hw, by simpa using hww⟩
  have hcard : (ids.map oidOfVal).toFinset.card ≤ keysF.toFinset.card := by
    have h1 : keysF.toFinset.card = keysF.length := List.toFinset_card_of_nodup hkeysNodup
    have h2 : keysF.length = ids.length := by
      rw [hkeys, List.length_map, hlen]
    have h3 : (ids.map oidOfVal).toFinset.card ≤ (ids.map oidOfVal).length :=
      List.toFinset_card_le _
    rw [List.length_map] at h3
    omega
  have heqF : keysF.toFinset = (ids.map oidOfVal).toFinset :=
    Finset.eq_of_subset_of_card_le hsub hcard
  have hmemk : oidOfVal v ∈ keysF := by
    rw [← List.mem_toFinset, heqF, List.mem_toFinset, List.mem_map]
    exact ⟨v, hv, rfl⟩
  obtain ⟨d, hdF, hdk⟩ := List.mem_map.mp hmemk
  exact ⟨d, (List.mem_filter.mp hdF).1, hdk.symm⟩

/-- C3 counterexample to the claim as stated: a Playlist create whose
`songs[]` holds only the malformed id `"notanid"` is answered 201 — not a
400 validation error — and persists a record with `songs: []`: the
malformed id was silently filtered out during sanitisation. -/
theorem playlist_malformed_ref_cx :
    jsObjectIdIsValid (.vStr "notanid") = false ∧
    (sanitizePlaylist plBadSongBody).songs = .vArr [] ∧
    createPlaylist urlOracle 7 idC emptyDb plBadSongBody
      = (.created ⟨idC, sanitizePlaylist plBadSongBody, 7, 7⟩,
         ⟨[], [], [], [⟨idC, sanitizePlaylist plBadSongBody, 7, 7⟩]⟩) := by
  exact ⟨by decide, rfl, rfl⟩

/-- C3 (amended): for Album and Song create, the reference-existence checks
run strictly after field-shape validation and strictly before the insert —
a malformed Song `album_id` or `artist_id`, or a malformed Album
`artist_id`, is answered with the 400 validation details list naming that
reference (for every database, so no reference lookup is involved), a
reference-not-found answer implies validation had passed (both kinds), a
persisted song had resolved both its references, and a persisted album had
resolved its artist.  For Playlist create, malformed entries of `songs[]`
are silently removed during sanitisation, before validation, so they
surface as neither validation nor reference errors; the existence check
covers exactly the surviving well-formed ids and a persisted playlist
resolves every stored reference. -/
theorem create_reference_check_order :
    (∀ isUrl now freshId db body,
      jsObjectIdIsValid (sanitizeSong body).album_id = false →
      createSong isUrl now freshId db body
        = (.validationFailed (validateSong isUrl (sanitizeSong body)), db) ∧
      "Valid album ID is required" ∈ validateSong isUrl (sanitizeSong body)) ∧
    (∀ isUrl now freshId db body,
      jsObjectIdIsValid (sanitizeSong body).artist_id = false →
      createSong isUrl now freshId db body
        = (.validationFailed (validateSong isUrl (sanitizeSong body)), db) ∧
      "Valid artist ID is required" ∈ validateSong isUrl (sanitizeSong body)) ∧
    (∀ isUrl dateParse now freshId db body,
      jsObjectIdIsValid (sanitizeAlbum body).artist_id = false →
      createAlbum isUrl dateParse now freshId db body
        = (.validationFailed (validateAlbum isUrl dateParse now (sanitizeAlbum body)), db) ∧
      "Valid artist ID is required" ∈ validateAlbum isUrl dateParse now (sanitizeAlbum body)) ∧
    (∀ isUrl now freshId db body m,
      (createSong isUrl now freshId db body).1 = .refErr m →
      validateSong isUrl (sanitizeSong body) = []) ∧
    (∀ isUrl dateParse now freshId db body m,
      (createAlbum isUrl dateParse now freshId db body).1 = .refErr m →
      validateAlbum isUrl dateParse now (sanitizeAlbum body) = []) ∧
    (∀ isUrl now freshId db body doc db2,
      createSong isUrl now freshId db body = (.created doc, db2) →
      (db.albums.find? (fun d => oidOfVal (sanitizeSong body).album_id == oidCanon d._id)).isSome
        = true ∧
      (db.artists.find?
          (fun d => oidOfVal (sanitizeSong body).artist_id == oidCanon d._id)).isSome = true) ∧
    (∀ isUrl dateParse now freshId db body doc db2,
      createAlbum isUrl dateParse now freshId db body = (.created doc, db2) →
      (db.artists.find?
          (fun d => oidOfVal (sanitizeAlbum body).artist_id == oidCanon d._id)).isSome = true) ∧
    (∀ body xs, body.songs = JSVal.vArr xs →
      (sanitizePlaylist body).songs = .vArr (xs.filter jsObjectIdIsValid)) ∧
    (∀ isUrl now freshId db body doc db2,
      (db.songs.map (fun d => oidCanon d._id)).Nodup →
      createPlaylist isUrl now freshId db body = (.created doc, db2) →
      doc.data.songs = (sanitizePlaylist body).songs ∧
      ∀ v ∈ songIdList doc.data.songs, ∃ d ∈ db.songs, oidOfVal v = oidCanon d._id) := by
  refine ⟨?_, ?_, ?_, ?_, ?_, ?_, ?_, ?_, ?_⟩
  · intro isUrl now freshId db body hmal
    have hblock : refIdErrs (sanitizeSong body).album_id "Valid album ID is required"
        = ["Valid album ID is required"] := by
      simp [refIdErrs, hmal]
    have hmem : "Valid album ID is required" ∈ validateSong isUrl (sanitizeSong body) := by
      simp [validateSong, hblock]
    refine ⟨?_, hmem⟩
    have hne : (validateSong isUrl (sanitizeSong body)).isEmpty = false := by
      cases he : (validateSong isUrl (sanitizeSong body)).isEmpty
      · rfl
      · rw [List.isEmpty_iff] at he
        rw [he] at hmem
        cases hmem
    simp [createSong, hne]
  · intro isUrl now freshId db body hmal
    have hblock : refIdErrs (sanitizeSong body).artist_id "Valid artist ID is required"
        = ["Valid artist ID is required"] := by
      simp [refIdErrs, hmal]
    have hmem : "Valid artist ID is required" ∈ validateSong isUrl (sanitizeSong body) := by
      simp [validateSong, hblock]
    refine ⟨?_, hmem⟩
    have hne : (validateSong isUrl (sanitizeSong body)).isEmpty = false := by
      cases he : (validateSong isUrl (sanitizeSong body)).isEmpty
      · rfl
      · rw [List.isEmpty_iff] at he
        rw [he] at hmem
        cases hmem
    simp [createSong, hne]
  · intro isUrl dateParse now freshId db body hmal
    have hblock : refIdErrs (sanitizeAlbum body).artist_id "Valid artist ID is required"
        = ["Valid artist ID is required"] := by
      simp [refIdErrs, hmal]
    have hmem : "Valid artist ID is required"
        ∈ validateAlbum isUrl dateParse now (sanitizeAlbum body) := by
      simp [validateAlbum, hblock]
    refine ⟨?_, hmem⟩
    have hne : (validateAlbum isUrl dateParse now (sanitizeAlbum body)).isEmpty = false := by
      cases he : (validateAlbum isUrl dateParse now (sanitizeAlbum body)).isEmpty
      · rfl
      · rw [List.isEmpty_iff] at he
        rw [he] at hmem
        cases hmem
    simp [createAlbum, hne]
  · intro isUrl now freshId db body m h
    cases he : (validateSong isUrl (sanitizeSong body)).isEmpty
    · exfalso
      simp only [createSong, he, Bool.not_false, if_true] at h
      cases h
    · exact List.isEmpty_iff.mp he
  · intro isUrl dateParse now freshId db body m h
    cases he : (validateAlbum isUrl dateParse now (sanitizeAlbum body)).isEmpty
    · exfalso
      simp only [createAlbum, he, Bool.not_false, if_true] at h
      cases h
    · exact List.isEmpty_iff.mp he
  · intro isUrl now freshId db body doc db2 heq
    simp only [createSong] at heq
    split at heq
    · simp at heq
    · split at heq
      · simp at heq
      · rename_i halb
        split at heq
        · simp at heq
        · rename_i hart
          refine ⟨?_, ?_⟩
          · rw [halb]; rfl
          · rw [hart]; rfl
  · intro isUrl dateParse now freshId db body doc db2 heq
    simp only [createAlbum] at heq
    split at heq
    · simp at heq
    · split at heq
      · simp at heq
      · rename_i hart
        rw [hart]
        rfl
  · intro body xs h
    simp [sanitizePlaylist, h]
  · intro isUrl now freshId db body doc db2 hnodup heq
    simp only [createPlaylist] at heq
    split at heq
    · simp at heq
    · split at heq
      · simp at heq
      · rename_i herrs
        split at heq
        · simp at heq
        · rename_i hguard
          split at heq
          · simp at heq
          · rw [Prod.mk.injEq] at heq
            obtain ⟨hdoc, -⟩ := heq
            cases hdoc
            refine ⟨rfl, ?_⟩
            intro v hv
            have hguard' : songIdList (sanitizePlaylist body).songs ≠ [] →
                playlistSongsExist db (songIdList (sanitizePlaylist body).songs) = true := by
              simpa using hguard
            exact playlistSongsExist_resolves db _ hnodup
              (hguard' (List.ne_nil_of_mem hv)) v hv

/-- C3 witness: a song body with the malformed `album_id` `"nope"` is
rejected with the validation details list on the empty database, and a
created playlist referencing the stored song `idA` resolves its stored
reference. -/
theorem create_reference_check_order_witness :
    createSong urlOracle 7 idC emptyDb badRefSongBody
      = (.validationFailed (validateSong urlOracle (sanitizeSong badRefSongBody)), emptyDb) ∧
    "Valid album ID is required" ∈ validateSong urlOracle (sanitizeSong badRefSongBody) ∧
    (∀ v ∈ songIdList (sanitizePlaylist plGoodBody).songs,
      ∃ d ∈ c8wdb.songs, oidOfVal v = oidCanon d._id) := by
  obtain ⟨h1, -, -, -, -, -, -, -, h9⟩ := create_reference_check_order
  have ha := h1 urlOracle 7 idC emptyDb badRefSongBody (by decide)
  have hb := h9 urlOracle 7 idD c8wdb plGoodBody ⟨idD, sanitizePlaylist plGoodBody, 7, 7⟩
    { c8wdb with playlists := c8wdb.playlists ++ [⟨idD, sanitizePlaylist plGoodBody, 7, 7⟩] }
    (by decide) rfl
  exact ⟨ha.1, ha.2, hb.2⟩

/-- No update outcome carries HTTP 409: the update handlers have no
conflict path at all. -/
theorem updateStatus_ne_409 (r : UpdateResult) : r.status ≠ 409 := by
  cases r <;> simp [UpdateResult.status]

/-- C7 counterexample to "exactly two of the four entity kinds re-run the
duplicate check on update": none does.  For each of the four kinds, a PUT
that renames a record into collision with another stored record's unique
key (the collision is exhibited by the create-side duplicate predicate
matching the other record) succeeds with 204. -/
theorem update_no_dup_recheck_cx :
    ((putArtist urlOracle 2026 9 c7adb idB artistAbcBody).1 = .updated ∧
      regexMatchesVal (dupNamePattern (putArtistData artistAbcBody).name) artistAbc.name
        = true) ∧
    ((putAlbum urlOracle dateOracle 50000 c7bdb idC albumOneBody).1 = .updated ∧
      regexMatchesVal (dupNamePattern (putAlbumData albumOneBody).title) albumOne.title = true ∧
      bsonEq (putAlbumData albumOneBody).artist_id albumOne.artist_id = true) ∧
    ((putSong urlOracle 9 c7sdb idD songTBody).1 = .updated ∧
      regexMatchesVal (dupNamePattern (sanitizeSong songTBody).title) songT.title = true ∧
      bsonEq (sanitizeSong songTBody).album_id songT.album_id = true) ∧
    ((putPlaylist urlOracle 9 c7pdb idB plRenameBody).1 = .updated ∧
      regexMatchesVal (dupNamePattern (sanitizePlaylist plRenameBody).name) plP.name = true ∧
      bsonEq (sanitizePlaylist plRenameBody).creator_name plP.creator_name = true) := by
  exact ⟨⟨rfl, by decide⟩, ⟨rfl, by decide, by decide⟩, ⟨rfl, by decide, by decide⟩,
    ⟨rfl, by decide, by decide⟩⟩

/-- C7 (amended): duplicate detection runs on create — for each entity
kind, a create whose sanitised data passes validation and the reference
checks but collides with a stored record under the kind's uniqueness rule
is answered 409 with no insert — and the duplicate checks are re-run on
update in none of the four kinds: no PUT outcome is ever 409. -/
theorem dup_check_create_only :
    (∀ isUrl nowYear now db idStr body,
      (putArtist isUrl nowYear now db idStr body).1.status ≠ 409) ∧
    (∀ isUrl dateParse now db idStr body,
      (putAlbum isUrl dateParse now db idStr body).1.status ≠ 409) ∧
    (∀ isUrl now db idStr body, (putSong isUrl now db idStr body).1.status ≠ 409) ∧
    (∀ isUrl now db idStr body, (putPlaylist isUrl now db idStr body).1.status ≠ 409) ∧
    (∀ isUrl nowYear now freshId db body d,
      validateArtist isUrl nowYear (sanitizeArtist body) = .ok [] →
      d ∈ db.artists →
      regexMatchesVal (dupNamePattern (sanitizeArtist body).name) d.data.name = true →
      createArtist isUrl nowYear now freshId db body
        = (.conflict "Artist already exists", db)) ∧
    (∀ isUrl dateParse now freshId db body d,
      validateAlbum isUrl dateParse now (sanitizeAlbum body) = [] →
      (db.artists.find?
          (fun x => oidOfVal (sanitizeAlbum body).artist_id == oidCanon x._id)).isSome = true →
      d ∈ db.albums →
      (regexMatchesVal (dupNamePattern (sanitizeAlbum body).title) d.data.title
        && bsonEq (sanitizeAlbum body).artist_id d.data.artist_id) = true →
      createAlbum isUrl dateParse now freshId db body
        = (.conflict "Album already exists", db)) ∧
    (∀ isUrl now freshId db body d,
      validateSong isUrl (sanitizeSong body) = [] →
      (db.albums.find?
          (fun x => oidOfVal (sanitizeSong body).album_id == oidCanon x._id)).isSome = true →
      (db.artists.find?
          (fun x => oidOfVal (sanitizeSong body).artist_id == oidCanon x._id)).isSome = true →
      d ∈ db.songs →
      (regexMatchesVal (dupNamePattern (sanitizeSong body).title) d.data.title
        && bsonEq (sanitizeSong body).album_id d.data.album_id) = true →
      createSong isUrl now freshId db body = (.conflict "Song already exists", db)) ∧
    (∀ isUrl now freshId db body d,
      validatePlaylist isUrl (sanitizePlaylist body) = .ok [] →
      playlistSongsExist db (songIdList (sanitizePlaylist body).songs) = true →
      d ∈ db.playlists →
      (regexMatchesVal (dupNamePattern (sanitizePlaylist body).name) d.data.name
        && bsonEq (sanitizePlaylist body).creator_name d.data.creator_name) = true →
      createPlaylist isUrl now freshId db body
        = (.conflict "Playlist already exists", db)) := by
  refine ⟨fun _ _ _ _ _ _ => updateStatus_ne_409 _, fun _ _ _ _ _ _ => updateStatus_ne_409 _,
    fun _ _ _ _ _ => updateStatus_ne_409 _, fun _ _ _ _ _ => updateStatus_ne_409 _,
    ?_, ?_, ?_, ?_⟩
  · intro isUrl nowYear now freshId db body d hval hd hp
    have hsome : (db.artists.find? (fun x =>
        regexMatchesVal (dupNamePattern (sanitizeArtist body).name) x.data.name)).isSome
        = true := List.find?_isSome.mpr ⟨d, hd, hp⟩
    obtain ⟨d', hd'⟩ := Option.isSome_iff_exists.mp hsome
    simp only [createArtist, hval, List.isEmpty_nil, Bool.not_true, Bool.false_eq_true,
      if_false, hd']
  · intro isUrl dateParse now freshId db body d hval hart hd hp
    obtain ⟨a, ha⟩ := Option.isSome_iff_exists.mp hart
    have hsome : (db.albums.find? (fun x =>
        regexMatchesVal (dupNamePattern (sanitizeAlbum body).title) x.data.title
          && bsonEq (sanitizeAlbum body).artist_id x.data.artist_id)).isSome
        = true := List.find?_isSome.mpr ⟨d, hd, hp⟩
    obtain ⟨d', hd'⟩ := Option.isSome_iff_exists.mp hsome
    simp only [createAlbum, hval, List.isEmpty_nil, Bool.not_true, Bool.false_eq_true,
      if_false, ha, hd']
  · intro isUrl now freshId db body d hval halb hart hd hp
    obtain ⟨a, ha⟩ := Option.isSome_iff_exists.mp halb
    obtain ⟨b, hb⟩ := Option.isSome_iff_exists.mp hart
    have hsome : (db.songs.find? (fun x =>
        regexMatchesVal (dupNamePattern (sanitizeSong body).title) x.data.title
          && bsonEq (sanitizeSong body).album_id x.data.album_id)).isSome
        = true := List.find?_isSome.mpr ⟨d, hd, hp⟩
    obtain ⟨d', hd'⟩ := Option.isSome_iff_exists.mp hsome
    simp only [createSong, hval, List.isEmpty_nil, Bool.not_true, Bool.false_eq_true,
      if_false, ha, hb, hd']
  · intro isUrl now freshId db body d hval hexist hd hp
    have hsome : (db.playlists.find? (fun x =>
        regexMatchesVal (dupNamePattern (sanitizePlaylist body).name) x.data.name
          && bsonEq (sanitizePlaylist body).creator_name x.data.creator_name)).isSome
        = true := List.find?_isSome.mpr ⟨d, hd, hp⟩
    obtain ⟨d', hd'⟩ := Option.isSome_iff_exists.mp hsome
    simp only [createPlaylist, hval, List.isEmpty_nil, Bool.not_true, Bool.false_eq_true,
      if_false, hexist, Bool.and_false, hd']

/-- C7 witness: the create of a duplicate `abc` artist is rejected 409 with
no insert, while the PUT that renames the `xyz` artist to `abc` is not
(its status is not 409). -/
theorem dup_check_create_only_witness :
    createArtist urlOracle 2026 5 idD c7adb artistAbcBody
      = (.conflict "Artist already exists", c7adb) ∧
    (putArtist urlOracle 2026 9 c7adb idB artistAbcBody).1.status ≠ 409 := by
  obtain ⟨hput, -, -, -, hart, -⟩ := dup_check_create_only
  exact ⟨hart urlOracle 2026 5 idD c7adb artistAbcBody ⟨idA, artistAbc, 0, 0⟩ rfl
      (by simp [c7adb]) (by decide),
    hput urlOracle 2026 9 c7adb idB artistAbcBody⟩

/-! ### Block-level facts about the validators (for C5) -/

/-- The required-string block accepts exactly its contract. -/
theorem strFieldErrs_nil_iff (v : JSVal) (n : Nat) (m1 m2 : String) :
    strFieldErrs v n m1 m2 = [] ↔ strFieldOk v n = true := by
  cases v <;> simp only [strFieldErrs, strFieldOk] <;> try simp
  rename_i s
  split_ifs with h1 h2 <;> simp_all

/-- The required-string block pushes its required message on the required
branch. -/
theorem strFieldErrs_req (v : JSVal) (n : Nat) (m1 m2 : String)
    (h : strFieldReqBad v = true) : strFieldErrs v n m1 m2 = [m1] := by
  cases v <;> simp_all [strFieldErrs, strFieldReqBad]

/-- The reference-id block accepts exactly its contract. -/
theorem refIdErrs_nil_iff (v : JSVal) (m : String) :
    refIdErrs v m = [] ↔ refIdOk v = true := by
  unfold refIdErrs refIdOk
  cases h1 : truthy v <;> cases h2 : jsObjectIdIsValid v <;> simp

/-- The reference-id block pushes its message when the rule fails. -/
theorem refIdErrs_req (v : JSVal) (m : String) (h : refIdOk v = false) :
    refIdErrs v m = [m] := by
  unfold refIdErrs
  unfold refIdOk at h
  cases h1 : truthy v <;> cases h2 : jsObjectIdIsValid v <;> simp_all

/-- The numeric-range block accepts exactly its contract. -/
theorem numRangeErrs_nil_iff (v : JSVal) (hi : Int) (m1 m2 : String) :
    numRangeErrs v hi m1 m2 = [] ↔ numRangeOk v hi = true := by
  unfold numRangeErrs numRangeOk
  cases h1 : truthy v <;> cases h2 : jsIsNaN v <;> cases h3 : jsLtNum v 1 <;>
    cases h4 : jsGtNum v hi <;> simp

/-- The numeric-range block pushes its required message on the low/required
branch. -/
theorem numRangeErrs_req (v : JSVal) (hi : Int) (m1 m2 : String)
    (h : numRangeReqBad v = true) : numRangeErrs v hi m1 m2 = [m1] := by
  unfold numRangeErrs
  unfold numRangeReqBad at h
  cases h1 : truthy v <;> cases h2 : jsIsNaN v <;> cases h3 : jsLtNum v 1 <;> simp_all

/-- The optional bounded-string block accepts exactly its contract. -/
theorem optStrMaxErrs_nil_iff (v : JSVal) (n : Nat) (m : String) :
    optStrMaxErrs v n m = [] ↔ optStrMaxOk v n = true := by
  unfold optStrMaxErrs optStrMaxOk
  cases htr : truthy v
  · simp
  · cases v <;> simp_all

/-- The optional URL block accepts exactly its contract. -/
theorem optUrlErrs_nil_iff (isUrl : String → Bool) (v : JSVal) (m : String) :
    optUrlErrs isUrl v m = [] ↔ optUrlOk isUrl v = true := by
  unfold optUrlErrs optUrlOk
  cases htr : truthy v
  · simp
  · cases v <;> simp_all

/-- The formed-year block accepts exactly its contract. -/
theorem formedYearErrs_nil_iff (nowYear : Int) (v : JSVal) :
    formedYearErrs nowYear v = [] ↔ formedYearOk nowYear v = true := by
  unfold formedYearErrs formedYearOk
  cases h1 : truthy v <;> cases h2 : jsIsNaN v <;> cases h3 : jsLtNum v 1900 <;>
    cases h4 : jsGtNum v nowYear <;> simp

/-- The formed-year block pushes its message when the rule fails. -/
theorem formedYearErrs_req (nowYear : Int) (v : JSVal) (h : formedYearOk nowYear v = false) :
    formedYearErrs nowYear v = [s!"Valid formed year is required (1900 - {nowYear})"] := by
  unfold formedYearErrs
  unfold formedYearOk at h
  cases h1 : truthy v <;> cases h2 : jsIsNaN v <;> cases h3 : jsLtNum v 1900 <;>
    cases h4 : jsGtNum v nowYear <;> simp_all

/-- The track-number block accepts exactly its contract. -/
theorem trackNumberErrs_nil_iff (v : JSVal) :
    trackNumberErrs v = [] ↔ trackNumberOk v = true := by
  unfold trackNumberErrs trackNumberOk
  cases h1 : truthy v <;> cases h2 : jsIsNaN v <;> cases h3 : jsLtNum v 1 <;>
    cases h4 : jsGtNum v 200 <;> simp

/-- One member entry validates exactly when it satisfies `memberOk`. -/
theorem memberEntryErrs_nil_iff (i : Nat) (m : JSVal) :
    memberEntryErrs i m = [] ↔ memberOk m = true := by
  cases m <;> simp only [memberEntryErrs, memberOk] <;> try simp
  split_ifs <;> simp_all

/-- The member loop validates exactly when every entry does. -/
theorem memberMsgs_nil_iff : ∀ (i : Nat) (xs : List JSVal),
    memberMsgs i xs = [] ↔ xs.all memberOk = true := by
  intro i xs
  induction xs generalizing i with
  | nil => simp [memberMsgs]
  | cons x rest ih =>
    simp [memberMsgs, List.append_eq_nil, memberEntryErrs_nil_iff, ih (i + 1)]

/-- One tag entry validates exactly when it satisfies `tagOk`. -/
theorem tagEntryErrs_nil_iff (i : Nat) (m : JSVal) :
    tagEntryErrs i m = [] ↔ tagOk m = true := by
  cases m <;> simp only [tagEntryErrs, tagOk] <;> try simp
  split_ifs <;> simp_all

/-- The tag loop validates exactly when every entry does. -/
theorem tagMsgs_nil_iff : ∀ (i : Nat) (xs : List JSVal),
    tagMsgs i xs = [] ↔ xs.all tagOk = true := by
  intro i xs
  induction xs generalizing i with
  | nil => simp [tagMsgs]
  | cons x rest ih =>
    simp [tagMsgs, List.append_eq_nil, tagEntryErrs_nil_iff, ih (i + 1)]

/-- The song-id loop validates exactly when every id is well-formed. -/
theorem songIdMsgs_nil_iff : ∀ (i : Nat) (xs : List JSVal),
    songIdMsgs i xs = [] ↔ xs.all jsObjectIdIsValid = true := by
  intro i xs
  induction xs generalizing i with
  | nil => simp [songIdMsgs]
  | cons x rest ih =>
    by_cases hx : jsObjectIdIsValid x = true
    · simp [songIdMsgs, hx, ih (i + 1)]
    · simp [songIdMsgs, Bool.eq_false_iff.mpr hx, ih (i + 1)]

/-- The members section returns no violations exactly on its contract. -/
theorem membersErrs_ok_nil_iff (v : JSVal) :
    membersErrs v = .ok [] ↔ membersOk v = true := by
  cases v
  case vArr xs =>
    cases xs with
    | nil => simp [membersErrs, membersOk]
    | cons m rest =>
      simp only [membersErrs, membersOk]
      cases ht : trimLowerMemberNames (m :: rest) with
      | error e => simp
      | ok names =>
        cases hd : hasDup names <;>
          simp [List.append_eq_nil, memberMsgs_nil_iff, List.isEmpty_cons]
  all_goals simp [membersErrs, membersOk]

/-- A thrown members section means the members contract is violated. -/
theorem membersOk_of_error {v : JSVal} {e : Unit} (h : membersErrs v = .error e) :
    membersOk v = false := by
  cases v
  case vArr xs =>
    cases xs with
    | nil => simp [membersErrs] at h
    | cons m rest =>
      simp only [membersErrs] at h
      cases ht : trimLowerMemberNames (m :: rest) with
      | error e2 => simp [membersOk, ht]
      | ok names => rw [ht] at h; cases h
  all_goals simp [membersErrs] at h

/-- A required-branch failure of the members rule yields exactly the
required message. -/
theorem membersErrs_req (v : JSVal) (h : membersReqBad v = true) :
    membersErrs v = .ok ["At least one member is required"] := by
  cases v
  case vArr xs =>
    cases xs with
    | nil => simp [membersErrs]
    | cons m rest => simp [membersReqBad] at h
  all_goals simp [membersErrs]

/-- The songs section returns no violations exactly on its contract. -/
theorem playlistSongsErrs_ok_nil_iff (v : JSVal) :
    playlistSongsErrs v = .ok [] ↔ songsFieldOk v = true := by
  cases v
  case vArr xs =>
    simp only [playlistSongsErrs, songsFieldOk]
    cases ht : songToStrings xs with
    | error e => simp
    | ok ids =>
      cases hd : hasDup ids <;> simp [List.append_eq_nil, songIdMsgs_nil_iff]
  all_goals simp [playlistSongsErrs, songsFieldOk, truthy]

/-- A thrown songs section means the songs contract is violated. -/
theorem songsFieldOk_of_error {v : JSVal} {e : Unit} (h : playlistSongsErrs v = .error e) :
    songsFieldOk v = false := by
  cases v
  case vArr xs =>
    simp only [playlistSongsErrs] at h
    cases ht : songToStrings xs with
    | error e2 => simp [songsFieldOk, ht]
    | ok ids => rw [ht] at h; cases h
  all_goals simp [playlistSongsErrs] at h

/-- The tags section returns no violations exactly on its contract. -/
theorem tagsErrs_nil_iff (v : JSVal) :
    tagsErrs v = [] ↔ tagsFieldOk v = true := by
  cases v
  case vArr xs => simp [tagsErrs, tagsFieldOk, tagMsgs_nil_iff]
  all_goals simp [tagsErrs, tagsFieldOk, truthy]

/-- A guarded singleton block is empty iff its guard is off. -/
theorem guardErrs_nil_iff (c : Bool) (m : String) :
    (if c = true then [m] else ([] : List String)) = [] ↔ c = false := by
  cases c <;> simp

/-- `validateArtist` returns no violations exactly on the Artist field
contract. -/
theorem validateArtist_ok_nil_iff (isUrl : String → Bool) (nowYear : Int) (a : ArtistObj) :
    validateArtist isUrl nowYear a = .ok [] ↔ artistContract isUrl nowYear a = true := by
  unfold validateArtist artistContract
  cases hm : membersErrs a.members with
  | error e =>
    rw [membersOk_of_error hm]
    simp
  | ok mb =>
    have hmb : mb = [] ↔ membersOk a.members = true := by
      constructor
      · intro h
        rw [← membersErrs_ok_nil_iff, hm, h]
      · intro h
        have h2 := (membersErrs_ok_nil_iff a.members).mpr h
        rw [hm] at h2
        exact Except.ok.inj h2
    simp only [Except.ok.injEq, List.append_eq_nil]
    rw [strFieldErrs_nil_iff, strFieldErrs_nil_iff, strFieldErrs_nil_iff,
      formedYearErrs_nil_iff, optStrMaxErrs_nil_iff, optUrlErrs_nil_iff,
      guardErrs_nil_iff]
    have hsoc : (truthy a.social_media && !isTypeofObject a.social_media) = false
        ↔ (!truthy a.social_media || isTypeofObject a.social_media) = true := by
      cases h1 : truthy a.social_media <;> cases h2 : isTypeofObject a.social_media <;> simp
    rw [hsoc]
    simp only [Bool.and_eq_true]
    tauto

/-- `validateAlbum` returns no violations exactly on the Album field
contract. -/
theorem validateAlbum_nil_iff (isUrl : String → Bool) (dateParse : String → Option Int)
    (now : Int) (a : AlbumObj) :
    validateAlbum isUrl dateParse now a = [] ↔ albumContract isUrl dateParse now a = true := by
  have hdate : releaseDateErrs dateParse now a.release_date = []
      ↔ releaseDateOk dateParse now a.release_date = true := by
    unfold releaseDateErrs releaseDateOk
    cases htr : truthy a.release_date
    · simp
    · rw [if_neg (by simp [htr])]
      simp only [htr, Bool.true_and]
      cases hp : jsNewDate dateParse a.release_date with
      | none => simp
      | some t =>
        dsimp only
        cases hc : dateParse "1900-01-01" with
        | none =>
          dsimp only
          split_ifs with h1 <;> simp <;> omega
        | some t0 =>
          dsimp only
          split_ifs with h1 h2 <;> simp <;> omega
  unfold validateAlbum albumContract
  simp only [List.append_eq_nil]
  rw [strFieldErrs_nil_iff, refIdErrs_nil_iff, hdate, strFieldErrs_nil_iff,
    numRangeErrs_nil_iff, numRangeErrs_nil_iff, optStrMaxErrs_nil_iff, optUrlErrs_nil_iff]
  all_goals simp only [Bool.and_eq_true]

/-- `validateSong` returns no violations exactly on the Song field
contract. -/
theorem validateSong_nil_iff (isUrl : String → Bool) (s : SongObj) :
    validateSong isUrl s = [] ↔ songContract isUrl s = true := by
  unfold validateSong songContract
  simp only [List.append_eq_nil]
  rw [strFieldErrs_nil_iff, refIdErrs_nil_iff, refIdErrs_nil_iff, numRangeErrs_nil_iff,
    trackNumberErrs_nil_iff, strFieldErrs_nil_iff, optStrMaxErrs_nil_iff, optUrlErrs_nil_iff,
    guardErrs_nil_iff]
  have hfeat : (truthy s.featured_artists &&
        !(match s.featured_artists with | JSVal.vArr _ => true | _ => false)) = false
      ↔ featuredOk s.featured_artists = true := by
    unfold featuredOk
    cases h1 : truthy s.featured_artists <;>
      cases h2 : (match s.featured_artists with | JSVal.vArr _ => true | _ => false) <;> simp_all
  rw [hfeat]
  all_goals simp only [Bool.and_eq_true]

/-- `validatePlaylist` returns no violations exactly on the Playlist field
contract. -/
theorem validatePlaylist_ok_nil_iff (isUrl : String → Bool) (p : PlaylistObj) :
    validatePlaylist isUrl p = .ok [] ↔ playlistContract isUrl p = true := by
  unfold validatePlaylist playlistContract
  cases hs : playlistSongsErrs p.songs with
  | error e =>
    rw [songsFieldOk_of_error hs]
    simp
  | ok sb =>
    have hsb : sb = [] ↔ songsFieldOk p.songs = true := by
      constructor
      · intro h
        rw [← playlistSongsErrs_ok_nil_iff, hs, h]
      · intro h
        have h2 := (playlistSongsErrs_ok_nil_iff p.songs).mpr h
        rw [hs] at h2
        exact Except.ok.inj h2
    simp only [Except.ok.injEq, List.append_eq_nil, Bool.and_eq_true]
    rw [strFieldErrs_nil_iff, strFieldErrs_nil_iff, optStrMaxErrs_nil_iff, tagsErrs_nil_iff,
      optUrlErrs_nil_iff]
    tauto

/-- Every violated required rule of `validateArtist` contributes its message
to any returned violation list. -/
theorem validateArtist_accum (isUrl : String → Bool) (nowYear : Int) (a : ArtistObj)
    (r : ReqRule ArtistObj) (hr : r ∈ artistReqRules nowYear) (hb : r.bad a = true)
    (errs : List String) (hok : validateArtist isUrl nowYear a = .ok errs) :
    r.reqMsg ∈ errs := by
  unfold validateArtist at hok
  cases hm : membersErrs a.members with
  | error e =>
    rw [hm] at hok
    simp at hok
  | ok mb =>
    rw [hm] at hok
    simp only [Except.ok.injEq] at hok
    subst hok
    simp only [artistReqRules, List.mem_cons, List.not_mem_nil, or_false] at hr
    rcases hr with rfl | rfl | rfl | rfl | rfl
    · dsimp only at hb ⊢
      rw [strFieldErrs_req _ _ _ _ hb]
      simp
    · dsimp only at hb ⊢
      rw [strFieldErrs_req _ _ _ _ hb]
      simp
    · dsimp only at hb ⊢
      rw [strFieldErrs_req _ _ _ _ hb]
      simp
    · dsimp only at hb ⊢
      rw [formedYearErrs_req nowYear _ (by simpa using hb)]
      simp
    · dsimp only at hb ⊢
      have h2 := membersErrs_req a.members hb
      rw [hm] at h2
      have h3 := Except.ok.inj h2
      subst h3
      simp

/-- Every violated required rule of `validateAlbum` contributes its
message. -/
theorem validateAlbum_accum (isUrl : String → Bool) (dateParse : String → Option Int)
    (now : Int) (b : AlbumObj) (r : ReqRule AlbumObj) (hr : r ∈ albumReqRules)
    (hb : r.bad b = true) : r.reqMsg ∈ validateAlbum isUrl dateParse now b := by
  simp only [albumReqRules, List.mem_cons, List.not_mem_nil, or_false] at hr
  unfold validateAlbum
  rcases hr with rfl | rfl | rfl | rfl | rfl | rfl
  · dsimp only at hb ⊢
    rw [strFieldErrs_req _ _ _ _ hb]
    simp
  · dsimp only at hb ⊢
    rw [refIdErrs_req _ _ (by simpa using hb)]
    simp
  · dsimp only at hb ⊢
    have hd : releaseDateErrs dateParse now b.release_date = ["Release date is required"] := by
      unfold releaseDateErrs
      rw [if_pos hb]
    rw [hd]
    simp
  · dsimp only at hb ⊢
    rw [strFieldErrs_req _ _ _ _ hb]
    simp
  · dsimp only at hb ⊢
    rw [numRangeErrs_req _ _ _ _ hb]
    simp
  · dsimp only at hb ⊢
    rw [numRangeErrs_req _ _ _ _ hb]
    simp

/-- Every violated required rule of `validateSong` contributes its
message. -/
theorem validateSong_accum (isUrl : String → Bool) (s : SongObj) (r : ReqRule SongObj)
    (hr : r ∈ songReqRules) (hb : r.bad s = true) : r.reqMsg ∈ validateSong isUrl s := by
  simp only [songReqRules, List.mem_cons, List.not_mem_nil, or_false] at hr
  unfold validateSong
  rcases hr with rfl | rfl | rfl | rfl | rfl
  · dsimp only at hb ⊢
    rw [strFieldErrs_req _ _ _ _ hb]
    simp
  · dsimp only at hb ⊢
    rw [refIdErrs_req s.album_id _ (by simpa using hb)]
    simp
  · dsimp only at hb ⊢
    rw [refIdErrs_req s.artist_id _ (by simpa using hb)]
    simp
  · dsimp only at hb ⊢
    rw [numRangeErrs_req _ _ _ _ hb]
    simp
  · dsimp only at hb ⊢
    rw [strFieldErrs_req _ _ _ _ hb]
    simp

/-- Every violated required rule of `validatePlaylist` contributes its
message to any returned violation list. -/
theorem validatePlaylist_accum (isUrl : String → Bool) (p : PlaylistObj)
    (r : ReqRule PlaylistObj) (hr : r ∈ playlistReqRules) (hb : r.bad p = true)
    (errs : List String) (hok : validatePlaylist isUrl p = .ok errs) : r.reqMsg ∈ errs := by
  unfold validatePlaylist at hok
  cases hs : playlistSongsErrs p.songs with
  | error e =>
    rw [hs] at hok
    simp at hok
  | ok sb =>
    rw [hs] at hok
    simp only [Except.ok.injEq] at hok
    subst hok
    simp only [playlistReqRules, List.mem_cons, List.not_mem_nil, or_false] at hr
    rcases hr with rfl | rfl
    · dsimp only at hb ⊢
      rw [strFieldErrs_req _ _ _ _ hb]
      simp
    · dsimp only at hb ⊢
      rw [strFieldErrs_req _ _ _ _ hb]
      simp

/-- Unsetting the field a rule guards makes that rule's required condition
fail (Artist rules). -/
theorem artistReqRules_bad_of_unset (nowYear : Int) (a : ArtistObj) (r : ReqRule ArtistObj)
    (hr : r ∈ artistReqRules nowYear) : r.bad (r.set a .undef) = true := by
  simp only [artistReqRules, List.mem_cons, List.not_mem_nil, or_false] at hr
  rcases hr with rfl | rfl | rfl | rfl | rfl <;> rfl

/-- Unsetting the field a rule guards makes that rule's required condition
fail (Album rules). -/
theorem albumReqRules_bad_of_unset (b : AlbumObj) (r : ReqRule AlbumObj)
    (hr : r ∈ albumReqRules) : r.bad (r.set b .undef) = true := by
  simp only [albumReqRules, List.mem_cons, List.not_mem_nil, or_false] at hr
  rcases hr with rfl | rfl | rfl | rfl | rfl | rfl <;> rfl

/-- Unsetting the field a rule guards makes that rule's required condition
fail (Song rules). -/
theorem songReqRules_bad_of_unset (s : SongObj) (r : ReqRule SongObj)
    (hr : r ∈ songReqRules) : r.bad (r.set s .undef) = true := by
  simp only [songReqRules, List.mem_cons, List.not_mem_nil, or_false] at hr
  rcases hr with rfl | rfl | rfl | rfl | rfl <;> rfl

/-- Unsetting the field a rule guards makes that rule's required condition
fail (Playlist rules). -/
theorem playlistReqRules_bad_of_unset (p : PlaylistObj) (r : ReqRule PlaylistObj)
    (hr : r ∈ playlistReqRules) : r.bad (r.set p .undef) = true := by
  simp only [playlistReqRules, List.mem_cons, List.not_mem_nil, or_false] at hr
  rcases hr with rfl | rfl <;> rfl

/-- Unsetting any required Artist field of a contract-satisfying record
yields a returned (not thrown) list containing that rule's message. -/
theorem validateArtist_removal (isUrl : String → Bool) (nowYear : Int) (a : ArtistObj)
    (hc : artistContract isUrl nowYear a = true) (r : ReqRule ArtistObj)
    (hr : r ∈ artistReqRules nowYear) :
    ∃ errs, validateArtist isUrl nowYear (r.set a JSVal.undef) = .ok errs
      ∧ r.reqMsg ∈ errs := by
  have hr0 := hr
  have hbad := artistReqRules_bad_of_unset nowYear a r hr
  have hmOk : membersOk a.members = true := by
    simp only [artistContract, Bool.and_eq_true] at hc
    tauto
  cases hm : membersErrs (r.set a JSVal.undef).members with
  | error e =>
    exfalso
    simp only [artistReqRules, List.mem_cons, List.not_mem_nil, or_false] at hr0
    rcases hr0 with rfl | rfl | rfl | rfl | rfl
    · have hfalse := membersOk_of_error hm
      dsimp only at hfalse
      rw [hmOk] at hfalse
      exact Bool.noConfusion hfalse
    · have hfalse := membersOk_of_error hm
      dsimp only at hfalse
      rw [hmOk] at hfalse
      exact Bool.noConfusion hfalse
    · have hfalse := membersOk_of_error hm
      dsimp only at hfalse
      rw [hmOk] at hfalse
      exact Bool.noConfusion hfalse
    · have hfalse := membersOk_of_error hm
      dsimp only at hfalse
      rw [hmOk] at hfalse
      exact Bool.noConfusion hfalse
    · dsimp only at hm
      simp [membersErrs] at hm
  | ok mb =>
    cases hv : validateArtist isUrl nowYear (r.set a JSVal.undef) with
    | error e =>
      exfalso
      unfold validateArtist at hv
      rw [hm] at hv
      simp at hv
    | ok errs =>
      exact ⟨errs, rfl, validateArtist_accum isUrl nowYear _ r hr hbad errs hv⟩

/-- Unsetting any required Playlist field of a contract-satisfying record
yields a returned (not thrown) list containing that rule's message. -/
theorem validatePlaylist_removal (isUrl : String → Bool) (p : PlaylistObj)
    (hc : playlistContract isUrl p = true) (r : ReqRule PlaylistObj)
    (hr : r ∈ playlistReqRules) :
    ∃ errs, validatePlaylist isUrl (r.set p JSVal.undef) = .ok errs ∧ r.reqMsg ∈ errs := by
  have hr0 := hr
  have hbad := playlistReqRules_bad_of_unset p r hr
  have hsOk : songsFieldOk p.songs = true := by
    simp only [playlistContract, Bool.and_eq_true] at hc
    tauto
  cases hs : playlistSongsErrs (r.set p JSVal.undef).songs with
  | error e =>
    exfalso
    simp only [playlistReqRules, List.mem_cons, List.not_mem_nil, or_false] at hr0
    rcases hr0 with rfl | rfl
    · have hfalse := songsFieldOk_of_error hs
      dsimp only at hfalse
      rw [hsOk] at hfalse
      exact Bool.noConfusion hfalse
    · have hfalse := songsFieldOk_of_error hs
      dsimp only at hfalse
      rw [hsOk] at hfalse
      exact Bool.noConfusion hfalse
  | ok sb =>
    cases hv : validatePlaylist isUrl (r.set p JSVal.undef) with
    | error e =>
      exfalso
      unfold validatePlaylist at hv
      rw [hs] at hv
      simp at hv
    | ok errs =>
      exact ⟨errs, rfl, validatePlaylist_accum isUrl _ r hr hbad errs hv⟩

/-- The required-string block pushes its length message on the too-long
branch. -/
theorem strFieldErrs_len (v : JSVal) (n : Nat) (m1 m2 : String)
    (h : strFieldLenBad v n = true) : strFieldErrs v n m1 m2 = [m2] := by
  cases v <;> simp_all [strFieldErrs, strFieldLenBad]

/-- The numeric-range block pushes its bound message on the exceeds
branch. -/
theorem numRangeErrs_hi (v : JSVal) (hi : Int) (m1 m2 : String)
    (h : numRangeHiBad v hi = true) : numRangeErrs v hi m1 m2 = [m2] := by
  unfold numRangeHiBad numRangeReqBad at h
  unfold numRangeErrs
  cases h1 : truthy v <;> cases h2 : jsIsNaN v <;> cases h3 : jsLtNum v 1 <;>
    cases h4 : jsGtNum v hi <;> simp_all

/-- The optional bounded-string block pushes its message exactly on its
violation condition. -/
theorem optStrMaxErrs_viol (v : JSVal) (n : Nat) (m : String)
    (h : optStrBad v n = true) : optStrMaxErrs v n m = [m] := by
  unfold optStrBad at h
  unfold optStrMaxErrs
  cases ht : truthy v <;> simp_all
  cases v <;> simp_all

/-- The optional URL block pushes its message exactly on its violation
condition. -/
theorem optUrlErrs_viol (isUrl : String → Bool) (v : JSVal) (m : String)
    (h : optUrlBad isUrl v = true) : optUrlErrs isUrl v m = [m] := by
  unfold optUrlBad at h
  unfold optUrlErrs
  cases ht : truthy v <;> simp_all
  cases v <;> simp_all

/-- The track-number block pushes its positivity message on the low
branch. -/
theorem trackNumberErrs_lo (v : JSVal) (h : trackLoBad v = true) :
    trackNumberErrs v = ["Track number must be a positive integer"] := by
  unfold trackLoBad at h
  unfold trackNumberErrs
  rw [if_pos h]

/-- The track-number block pushes its bound message on the high branch. -/
theorem trackNumberErrs_hi (v : JSVal) (h : trackHiBad v = true) :
    trackNumberErrs v = ["Track number cannot exceed 200"] := by
  unfold trackHiBad trackLoBad at h
  unfold trackNumberErrs
  cases h1 : truthy v <;> cases h2 : jsIsNaN v <;> cases h3 : jsLtNum v 1 <;>
    cases h4 : jsGtNum v 200 <;> simp_all

/-- The date block pushes the format message on the unparseable branch. -/
theorem releaseDateErrs_fmt (dateParse : String → Option Int) (now : Int) (v : JSVal)
    (h : dateFmtBad dateParse v = true) :
    releaseDateErrs dateParse now v
      = ["Valid release date is required (YYYY-MM-DD format)"] := by
  unfold dateFmtBad at h
  simp only [Bool.and_eq_true, Option.isNone_iff_eq_none] at h
  obtain ⟨h1, h2⟩ := h
  unfold releaseDateErrs
  rw [if_neg (by simp [h1]), h2]

/-- The date block pushes the future message on the in-the-future
branch. -/
theorem releaseDateErrs_future (dateParse : String → Option Int) (now : Int) (v : JSVal)
    (h : dateFutureBad dateParse now v = true) :
    releaseDateErrs dateParse now v = ["Release date cannot be in the future"] := by
  unfold dateFutureBad at h
  simp only [Bool.and_eq_true] at h
  obtain ⟨h1, h2⟩ := h
  unfold releaseDateErrs
  rw [if_neg (by simp [h1])]
  cases hp : jsNewDate dateParse v with
  | none => rw [hp] at h2; simp at h2
  | some t =>
    rw [hp] at h2
    simp only [decide_eq_true_eq] at h2
    simp [h2]

/-- The date block pushes the before-1900 message on the too-old branch. -/
theorem releaseDateErrs_old (dateParse : String → Option Int) (now : Int) (v : JSVal)
    (h : dateOldBad dateParse now v = true) :
    releaseDateErrs dateParse now v = ["Release date cannot be before 1900"] := by
  unfold dateOldBad at h
  simp only [Bool.and_eq_true] at h
  obtain ⟨h1, h2⟩ := h
  unfold releaseDateErrs
  rw [if_neg (by simp [h1])]
  cases hp : jsNewDate dateParse v with
  | none => rw [hp] at h2; simp at h2
  | some t =>
    rw [hp] at h2
    simp only [Bool.and_eq_true, Bool.not_eq_true', decide_eq_false_iff_not,
      decide_eq_true_eq] at h2
    obtain ⟨h3, h4⟩ := h2
    dsimp only
    rw [if_neg h3]
    cases hc : dateParse "1900-01-01" with
    | none => rw [hc] at h4; simp at h4
    | some t0 =>
      rw [hc] at h4
      simp only [decide_eq_true_eq] at h4
      simp [h4]

/-- On the duplicate-members condition the members section returns a list
ending in the duplicate message. -/
theorem membersErrs_dup (v : JSVal) (h : membersDupBad v = true) :
    ∃ mb, membersErrs v = .ok mb ∧ "Duplicate member names are not allowed" ∈ mb := by
  cases v
  case vArr xs =>
    simp only [membersDupBad] at h
    cases xs with
    | nil => simp [trimLowerMemberNames, hasDup] at h
    | cons m rest =>
      cases htl : trimLowerMemberNames (m :: rest) with
      | error e =>
        rw [htl] at h
        simp at h
      | ok names =>
        rw [htl] at h
        simp only at h
        refine ⟨memberMsgs 1 (m :: rest) ++ ["Duplicate member names are not allowed"],
          ?_, by simp⟩
        simp only [membersErrs]
        rw [htl]
        simp [h]
  all_goals simp [membersDupBad] at h

/-- On the duplicate-songs condition the songs section returns a list
ending in the duplicate message. -/
theorem playlistSongsErrs_dup (v : JSVal) (h : songsDupBad v = true) :
    ∃ sb, playlistSongsErrs v = .ok sb
      ∧ "Duplicate songs are not allowed in the playlist" ∈ sb := by
  cases v
  case vArr xs =>
    simp only [songsDupBad] at h
    cases hts : songToStrings xs with
    | error e =>
      rw [hts] at h
      simp at h
    | ok ids =>
      rw [hts] at h
      simp only at h
      refine ⟨songIdMsgs 1 xs ++ ["Duplicate songs are not allowed in the playlist"],
        ?_, by simp⟩
      simp only [playlistSongsErrs]
      rw [hts]
      simp [h]
  all_goals simp [songsDupBad] at h

/-- A truthy non-array songs field makes the songs section return exactly
the array-shape message. -/
theorem playlistSongsErrs_notArr (v : JSVal) (h : notArrBad v = true) :
    playlistSongsErrs v = .ok ["Songs must be an array"] := by
  unfold notArrBad at h
  simp only [Bool.and_eq_true] at h
  obtain ⟨ht, harr⟩ := h
  cases v <;> simp_all [playlistSongsErrs]

/-- A truthy non-array tags field makes the tags section exactly the
array-shape message. -/
theorem tagsErrs_notArr (v : JSVal) (h : notArrBad v = true) :
    tagsErrs v = ["Tags must be an array"] := by
  unfold notArrBad at h
  simp only [Bool.and_eq_true] at h
  obtain ⟨ht, harr⟩ := h
  cases v <;> simp_all [tagsErrs]

/-- Any message of the `i`-th member entry is in the member loop's
output. -/
theorem memberMsgs_mem (xs : List JSVal) : ∀ (j i : Nat) (h : i < xs.length) (m' : String),
    m' ∈ memberEntryErrs (j + i) (xs.get ⟨i, h⟩) → m' ∈ memberMsgs j xs := by
  induction xs with
  | nil =>
    intro j i h m' hm
    exact absurd h (by simp)
  | cons x rest ih =>
    intro j i h m' hm
    cases i with
    | zero =>
      simp only [memberMsgs, List.mem_append]
      exact Or.inl (by simpa using hm)
    | succ k =>
      simp only [memberMsgs, List.mem_append]
      refine Or.inr (ih (j + 1) k (by simpa using h) m' ?_)
      have harith : j + 1 + k = j + (k + 1) := by omega
      rw [harith]
      simpa using hm

/-- Any message of the `i`-th tag entry is in the tag loop's output. -/
theorem tagMsgs_mem (xs : List JSVal) : ∀ (j i : Nat) (h : i < xs.length) (m' : String),
    m' ∈ tagEntryErrs (j + i) (xs.get ⟨i, h⟩) → m' ∈ tagMsgs j xs := by
  induction xs with
  | nil =>
    intro j i h m' hm
    exact absurd h (by simp)
  | cons x rest ih =>
    intro j i h m' hm
    cases i with
    | zero =>
      simp only [tagMsgs, List.mem_append]
      exact Or.inl (by simpa using hm)
    | succ k =>
      simp only [tagMsgs, List.mem_append]
      refine Or.inr (ih (j + 1) k (by simpa using h) m' ?_)
      have harith : j + 1 + k = j + (k + 1) := by omega
      rw [harith]
      simpa using hm

/-- An invalid id at index `i` puts its numbered message in the song-id
loop's output. -/
theorem songIdMsgs_mem (xs : List JSVal) : ∀ (j i : Nat) (h : i < xs.length),
    jsObjectIdIsValid (xs.get ⟨i, h⟩) = false →
    s!"Song {j + i} must be a valid MongoDB ObjectId" ∈ songIdMsgs j xs := by
  induction xs with
  | nil =>
    intro j i h
    exact absurd h (by simp)
  | cons x rest ih =>
    intro j i h hbadid
    cases i with
    | zero =>
      simp only [songIdMsgs, List.mem_append]
      refine Or.inl ?_
      have hx : jsObjectIdIsValid x = false := by simpa using hbadid
      simp [hx]
    | succ k =>
      simp only [songIdMsgs, List.mem_append]
      have harith : j + (k + 1) = j + 1 + k := by omega
      rw [harith]
      exact Or.inr (ih (j + 1) k (by simpa using h) (by simpa using hbadid))

/-- Every violated rule of `validateArtist` (static messages) contributes
its message to any returned violation list. -/
theorem validateArtist_full_accum (isUrl : String → Bool) (nowYear : Int) (a : ArtistObj)
    (r : ViolRule ArtistObj) (hr : r ∈ artistViolRules isUrl nowYear) (hb : r.viol a = true)
    (errs : List String) (hok : validateArtist isUrl nowYear a = .ok errs) :
    r.msg ∈ errs := by
  unfold validateArtist at hok
  cases hm : membersErrs a.members with
  | error e =>
    rw [hm] at hok
    simp at hok
  | ok mb =>
    rw [hm] at hok
    simp only [Except.ok.injEq] at hok
    subst hok
    simp only [artistViolRules, List.mem_cons, List.not_mem_nil, or_false] at hr
    rcases hr with rfl | rfl | rfl | rfl | rfl | rfl | rfl | rfl | rfl | rfl | rfl | rfl
    · dsimp only at hb ⊢
      rw [strFieldErrs_req _ _ _ _ hb]; simp
    · dsimp only at hb ⊢
      rw [strFieldErrs_len _ _ _ _ hb]; simp
    · dsimp only at hb ⊢
      rw [strFieldErrs_req _ _ _ _ hb]; simp
    · dsimp only at hb ⊢
      rw [strFieldErrs_len _ _ _ _ hb]; simp
    · dsimp only at hb ⊢
      rw [strFieldErrs_req _ _ _ _ hb]; simp
    · dsimp only at hb ⊢
      rw [strFieldErrs_len _ _ _ _ hb]; simp
    · dsimp only at hb ⊢
      rw [formedYearErrs_req nowYear _ (by simpa using hb)]; simp
    · dsimp only at hb ⊢
      have h2 := membersErrs_req a.members hb
      rw [hm] at h2
      have h3 := Except.ok.inj h2
      subst h3
      simp
    · dsimp only at hb ⊢
      obtain ⟨mb2, hmb2, hmem⟩ := membersErrs_dup a.members hb
      rw [hm] at hmb2
      have h3 := Except.ok.inj hmb2
      subst h3
      simp only [List.mem_append]
      tauto
    · dsimp only at hb ⊢
      rw [optStrMaxErrs_viol _ _ _ hb]; simp
    · dsimp only at hb ⊢
      rw [optUrlErrs_viol _ _ _ hb]; simp
    · dsimp only at hb ⊢
      rw [if_pos hb]; simp

/-- Every violated rule of `validateAlbum` contributes its message. -/
theorem validateAlbum_full_accum (isUrl : String → Bool) (dateParse : String → Option Int)
    (now : Int) (b : AlbumObj) (r : ViolRule AlbumObj)
    (hr : r ∈ albumViolRules isUrl dateParse now) (hb : r.viol b = true) :
    r.msg ∈ validateAlbum isUrl dateParse now b := by
  simp only [albumViolRules, List.mem_cons, List.not_mem_nil, or_false] at hr
  unfold validateAlbum
  rcases hr with rfl | rfl | rfl | rfl | rfl | rfl | rfl | rfl | rfl | rfl | rfl | rfl | rfl |
    rfl | rfl
  · dsimp only at hb ⊢
    rw [strFieldErrs_req _ _ _ _ hb]; simp
  · dsimp only at hb ⊢
    rw [strFieldErrs_len _ _ _ _ hb]; simp
  · dsimp only at hb ⊢
    rw [refIdErrs_req _ _ (by simpa using hb)]; simp
  · dsimp only at hb ⊢
    have hd : releaseDateErrs dateParse now b.release_date = ["Release date is required"] := by
      unfold releaseDateErrs
      rw [if_pos hb]
    rw [hd]; simp
  · dsimp only at hb ⊢
    rw [releaseDateErrs_fmt dateParse now _ hb]; simp
  · dsimp only at hb ⊢
    rw [releaseDateErrs_future dateParse now _ hb]; simp
  · dsimp only at hb ⊢
    rw [releaseDateErrs_old dateParse now _ hb]; simp
  · dsimp only at hb ⊢
    rw [strFieldErrs_req _ _ _ _ hb]; simp
  · dsimp only at hb ⊢
    rw [strFieldErrs_len _ _ _ _ hb]; simp
  · dsimp only at hb ⊢
    rw [numRangeErrs_req _ _ _ _ hb]; simp
  · dsimp only at hb ⊢
    rw [numRangeErrs_hi _ _ _ _ hb]; simp
  · dsimp only at hb ⊢
    rw [numRangeErrs_req _ _ _ _ hb]; simp
  · dsimp only at hb ⊢
    rw [numRangeErrs_hi _ _ _ _ hb]; simp
  · dsimp only at hb ⊢
    rw [optStrMaxErrs_viol _ _ _ hb]; simp
  · dsimp only at hb ⊢
    rw [optUrlErrs_viol _ _ _ hb]; simp

/-- Every violated rule of `validateSong` contributes its message. -/
theorem validateSong_full_accum (isUrl : String → Bool) (s : SongObj) (r : ViolRule SongObj)
    (hr : r ∈ songViolRules isUrl) (hb : r.viol s = true) :
    r.msg ∈ validateSong isUrl s := by
  simp only [songViolRules, List.mem_cons, List.not_mem_nil, or_false] at hr
  unfold validateSong
  rcases hr with rfl | rfl | rfl | rfl | rfl | rfl | rfl | rfl | rfl | rfl | rfl | rfl | rfl
  · dsimp only at hb ⊢
    rw [strFieldErrs_req _ _ _ _ hb]; simp
  · dsimp only at hb ⊢
    rw [strFieldErrs_len _ _ _ _ hb]; simp
  · dsimp only at hb ⊢
    rw [refIdErrs_req s.album_id _ (by simpa using hb)]; simp
  · dsimp only at hb ⊢
    rw [refIdErrs_req s.artist_id _ (by simpa using hb)]; simp
  · dsimp only at hb ⊢
    rw [numRangeErrs_req _ _ _ _ hb]; simp
  · dsimp only at hb ⊢
    rw [numRangeErrs_hi _ _ _ _ hb]; simp
  · dsimp only at hb ⊢
    rw [trackNumberErrs_lo _ hb]; simp
  · dsimp only at hb ⊢
    rw [trackNumberErrs_hi _ hb]; simp
  · dsimp only at hb ⊢
    rw [strFieldErrs_req _ _ _ _ hb]; simp
  · dsimp only at hb ⊢
    rw [strFieldErrs_len _ _ _ _ hb]; simp
  · dsimp only at hb ⊢
    rw [optStrMaxErrs_viol _ _ _ hb]; simp
  · dsimp only at hb ⊢
    rw [optUrlErrs_viol _ _ _ hb]; simp
  · dsimp only at hb ⊢
    unfold notArrBad at hb
    rw [if_pos hb]; simp

/-- Every violated rule of `validatePlaylist` (static messages) contributes
its message to any returned violation list. -/
theorem validatePlaylist_full_accum (isUrl : String → Bool) (p : PlaylistObj)
    (r : ViolRule PlaylistObj) (hr : r ∈ playlistViolRules isUrl) (hb : r.viol p = true)
    (errs : List String) (hok : validatePlaylist isUrl p = .ok errs) : r.msg ∈ errs := by
  unfold validatePlaylist at hok
  cases hs : playlistSongsErrs p.songs with
  | error e =>
    rw [hs] at hok
    simp at hok
  | ok sb =>
    rw [hs] at hok
    simp only [Except.ok.injEq] at hok
    subst hok
    simp only [playlistViolRules, List.mem_cons, List.not_mem_nil, or_false] at hr
    rcases hr with rfl | rfl | rfl | rfl | rfl | rfl | rfl | rfl | rfl
    · dsimp only at hb ⊢
      rw [strFieldErrs_req _ _ _ _ hb]; simp
    · dsimp only at hb ⊢
      rw [strFieldErrs_len _ _ _ _ hb]; simp
    · dsimp only at hb ⊢
      rw [strFieldErrs_req _ _ _ _ hb]; simp
    · dsimp only at hb ⊢
      rw [strFieldErrs_len _ _ _ _ hb]; simp
    · dsimp only at hb ⊢
      rw [optStrMaxErrs_viol _ _ _ hb]; simp
    · dsimp only at hb ⊢
      have h2 := playlistSongsErrs_notArr p.songs hb
      rw [hs] at h2
      have h3 := Except.ok.inj h2
      subst h3
      simp
    · dsimp only at hb ⊢
      obtain ⟨sb2, hsb2, hmem⟩ := playlistSongsErrs_dup p.songs hb
      rw [hs] at hsb2
      have h3 := Except.ok.inj hsb2
      subst h3
      simp only [List.mem_append]
      tauto
    · dsimp only at hb ⊢
      rw [tagsErrs_notArr p.tags hb]; simp
    · dsimp only at hb ⊢
      rw [optUrlErrs_viol _ _ _ hb]; simp

/-- Any violation message of any member entry lands in any returned
violation list of `validateArtist`. -/
theorem validateArtist_member_entries (isUrl : String → Bool) (nowYear : Int) (a : ArtistObj)
    (errs : List String) (hok : validateArtist isUrl nowYear a = .ok errs)
    (xs : List JSVal) (hxs : a.members = .vArr xs) (i : Nat) (h : i < xs.length)
    (m' : String) (hm' : m' ∈ memberEntryErrs (i + 1) (xs.get ⟨i, h⟩)) : m' ∈ errs := by
  unfold validateArtist at hok
  cases hm : membersErrs a.members with
  | error e =>
    rw [hm] at hok
    simp at hok
  | ok mb =>
    rw [hm] at hok
    simp only [Except.ok.injEq] at hok
    subst hok
    rw [hxs] at hm
    cases xs with
    | nil => exact absurd h (by simp)
    | cons x rest =>
      simp only [membersErrs] at hm
      cases htl : trimLowerMemberNames (x :: rest) with
      | error e =>
        rw [htl] at hm
        simp at hm
      | ok names =>
        rw [htl] at hm
        simp only at hm
        have h3 := Except.ok.inj hm
        have hmm : m' ∈ memberMsgs 1 (x :: rest) := by
          refine memberMsgs_mem (x :: rest) 1 i h m' ?_
          rw [Nat.add_comm 1 i]
          exact hm'
        rw [← h3]
        simp only [List.mem_append]
        tauto

/-- An invalid id at index `i` of a playlist's songs array puts its
numbered message in any returned violation list. -/
theorem validatePlaylist_song_entries (isUrl : String → Bool) (p : PlaylistObj)
    (errs : List String) (hok : validatePlaylist isUrl p = .ok errs)
    (xs : List JSVal) (hxs : p.songs = .vArr xs) (i : Nat) (h : i < xs.length)
    (hbadid : jsObjectIdIsValid (xs.get ⟨i, h⟩) = false) :
    s!"Song {i + 1} must be a valid MongoDB ObjectId" ∈ errs := by
  unfold validatePlaylist at hok
  cases hs : playlistSongsErrs p.songs with
  | error e =>
    rw [hs] at hok
    simp at hok
  | ok sb =>
    rw [hs] at hok
    simp only [Except.ok.injEq] at hok
    subst hok
    rw [hxs] at hs
    simp only [playlistSongsErrs] at hs
    cases hts : songToStrings xs with
    | error e =>
      rw [hts] at hs
      simp at hs
    | ok ids =>
      rw [hts] at hs
      simp only at hs
      have h3 := Except.ok.inj hs
      have hmm : s!"Song {i + 1} must be a valid MongoDB ObjectId" ∈ songIdMsgs 1 xs := by
        have h4 := songIdMsgs_mem xs 1 i h hbadid
        rw [Nat.add_comm 1 i] at h4
        exact h4
      rw [← h3]
      simp only [List.mem_append]
      tauto

/-- Any violation message of any tag entry lands in any returned violation
list of `validatePlaylist`. -/
theorem validatePlaylist_tag_entries (isUrl : String → Bool) (p : PlaylistObj)
    (errs : List String) (hok : validatePlaylist isUrl p = .ok errs)
    (xs : List JSVal) (hxs : p.tags = .vArr xs) (i : Nat) (h : i < xs.length)
    (m' : String) (hm' : m' ∈ tagEntryErrs (i + 1) (xs.get ⟨i, h⟩)) : m' ∈ errs := by
  unfold validatePlaylist at hok
  cases hs : playlistSongsErrs p.songs with
  | error e =>
    rw [hs] at hok
    simp at hok
  | ok sb =>
    rw [hs] at hok
    simp only [Except.ok.injEq] at hok
    subst hok
    have hmm : m' ∈ tagsErrs p.tags := by
      rw [hxs]
      simp only [tagsErrs]
      refine tagMsgs_mem xs 1 i h m' ?_
      rw [Nat.add_comm 1 i]
      exact hm'
    simp only [List.mem_append]
    tauto

/-- C5: each of the four validators accumulates violations without
short-circuiting: the empty violation list is returned exactly on the
entity's full field contract; every violated rule — the required, length
and bound, date, optional-field, array-shape and duplicate rules of the
entity's rule table, plus the index-numbered per-member / per-song-id /
per-tag rules — contributes its message to any returned violation list;
and unsetting any single required field of a contract-satisfying record
yields a returned list containing that field's required message.  For
Artist and Playlist the validator can throw instead of returning a list
(non-string `members` entries, `null`/`undefined` `songs` entries), so
their parts are stated over returned (`.ok`) lists — see the
counterexample. -/
theorem validators_accumulate (isUrl : String → Bool) (dateParse : String → Option Int)
    (now nowYear : Int) (a : ArtistObj) (b : AlbumObj) (s : SongObj) (p : PlaylistObj) :
    ((validateArtist isUrl nowYear a = Except.ok []
        ↔ artistContract isUrl nowYear a = true)
      ∧ (∀ r, r ∈ artistViolRules isUrl nowYear → r.viol a = true →
          ∀ errs, validateArtist isUrl nowYear a = Except.ok errs → r.msg ∈ errs)
      ∧ (∀ errs, validateArtist isUrl nowYear a = Except.ok errs →
          ∀ xs, a.members = JSVal.vArr xs → ∀ i, ∀ h : i < xs.length,
          ∀ m', m' ∈ memberEntryErrs (i + 1) (xs.get ⟨i, h⟩) → m' ∈ errs)
      ∧ (artistContract isUrl nowYear a = true → ∀ r, r ∈ artistReqRules nowYear →
          ∃ errs, validateArtist isUrl nowYear (r.set a JSVal.undef) = Except.ok errs
            ∧ r.reqMsg ∈ errs))
    ∧ ((validateAlbum isUrl dateParse now b = []
        ↔ albumContract isUrl dateParse now b = true)
      ∧ (∀ r, r ∈ albumViolRules isUrl dateParse now → r.viol b = true →
          r.msg ∈ validateAlbum isUrl dateParse now b)
      ∧ (∀ r, r ∈ albumReqRules →
          r.reqMsg ∈ validateAlbum isUrl dateParse now (r.set b JSVal.undef)))
    ∧ ((validateSong isUrl s = [] ↔ songContract isUrl s = true)
      ∧ (∀ r, r ∈ songViolRules isUrl → r.viol s = true → r.msg ∈ validateSong isUrl s)
      ∧ (∀ r, r ∈ songReqRules → r.reqMsg ∈ validateSong isUrl (r.set s JSVal.undef)))
    ∧ ((validatePlaylist isUrl p = Except.ok [] ↔ playlistContract isUrl p = true)
      ∧ (∀ r, r ∈ playlistViolRules isUrl → r.viol p = true →
          ∀ errs, validatePlaylist isUrl p = Except.ok errs → r.msg ∈ errs)
      ∧ (∀ errs, validatePlaylist isUrl p = Except.ok errs →
          ∀ xs, p.songs = JSVal.vArr xs → ∀ i, ∀ h : i < xs.length,
          jsObjectIdIsValid (xs.get ⟨i, h⟩) = false →
          s!"Song {i + 1} must be a valid MongoDB ObjectId" ∈ errs)
      ∧ (∀ errs, validatePlaylist isUrl p = Except.ok errs →
          ∀ xs, p.tags = JSVal.vArr xs → ∀ i, ∀ h : i < xs.length,
          ∀ m', m' ∈ tagEntryErrs (i + 1) (xs.get ⟨i, h⟩) → m' ∈ errs)
      ∧ (playlistContract isUrl p = true → ∀ r, r ∈ playlistReqRules →
          ∃ errs, validatePlaylist isUrl (r.set p JSVal.undef) = Except.ok errs
            ∧ r.reqMsg ∈ errs)) := by
  refine ⟨⟨validateArtist_ok_nil_iff isUrl nowYear a,
      validateArtist_full_accum isUrl nowYear a,
      fun errs hok xs hxs i h m' hm' =>
        validateArtist_member_entries isUrl nowYear a errs hok xs hxs i h m' hm',
      validateArtist_removal isUrl nowYear a⟩,
    ⟨validateAlbum_nil_iff isUrl dateParse now b,
      validateAlbum_full_accum isUrl dateParse now b,
      fun r hr => validateAlbum_accum isUrl dateParse now (r.set b JSVal.undef) r hr
        (albumReqRules_bad_of_unset b r hr)⟩,
    ⟨validateSong_nil_iff isUrl s,
      validateSong_full_accum isUrl s,
      fun r hr => validateSong_accum isUrl (r.set s JSVal.undef) r hr
        (songReqRules_bad_of_unset s r hr)⟩,
    ⟨validatePlaylist_ok_nil_iff isUrl p,
      validatePlaylist_full_accum isUrl p,
      fun errs hok xs hxs i h hbadid =>
        validatePlaylist_song_entries isUrl p errs hok xs hxs i h hbadid,
      fun errs hok xs hxs i h m' hm' =>
        validatePlaylist_tag_entries isUrl p errs hok xs hxs i h m' hm',
      validatePlaylist_removal isUrl p⟩⟩

/-- C5 counterexample: `c5bad` violates the required genre rule, yet
`validateArtist` yields no violation list at all — its `members.map(m =>
m.trim())` throws a TypeError on the number entry, which the route handler
surfaces as HTTP 500.  So a record violating several rules does not always
receive a message for each violated rule in one response. -/
theorem validators_accumulate_cx :
    validateArtist urlOracle 2026 c5bad = Except.error ()
    ∧ ((artistReqRules 2026).get ⟨1, by decide⟩).bad c5bad = true
    ∧ ∀ errs, validateArtist urlOracle 2026 c5bad ≠ Except.ok errs := by
  refine ⟨rfl, rfl, fun errs h => ?_⟩
  rw [show validateArtist urlOracle 2026 c5bad = Except.error () from rfl] at h
  exact Except.noConfusion h

/-- C5 witness: on the concrete record `c5rm` (valid but for its unset
name), the accumulation part of the claim theorem places the name rule's
message in the concrete returned list. -/
theorem validators_accumulate_witness :
    validateArtist urlOracle 2026 c5rm
      = Except.ok ["Artist name is required and must be a non-empty string"]
    ∧ "Artist name is required and must be a non-empty string"
      ∈ ["Artist name is required and must be a non-empty string"] := by
  refine ⟨rfl, ?_⟩
  exact (validators_accumulate urlOracle dateOracle 0 2026 c5rm albumOne songZeroBody
      plA).1.2.1
    ((artistViolRules urlOracle 2026).get ⟨0, by decide⟩)
    (List.get_mem _ _ _)
    rfl
    ["Artist name is required and must be a non-empty string"]
    rfl

/-- C9: the duplicate check on create compiles the candidate name into the
anchored case-insensitive pattern `^name$` rather than comparing strings:
creating `a.c` when `abc` is stored is rejected 409 with no insert, although
the two names differ even case-insensitively. -/
theorem dup_check_regex_not_literal :
    dupNamePattern (JSVal.vStr "a.c") = "^a.c$" ∧
    jsRegexTestCI "^a.c$" "abc" = true ∧
    ("a.c" : String) ≠ "abc" ∧ lowerStr "a.c" ≠ lowerStr "abc" ∧
    (createArtist urlOracle 2026 5 idB c9db artistDotBody).1
      = CreateResult.conflict "Artist already exists" ∧
    (createArtist urlOracle 2026 5 idB c9db artistDotBody).2 = c9db := by
  exact ⟨rfl, by decide, by decide, by decide, rfl, rfl⟩

/-- C10: a falsy `track_number` in a `POST /songs` body (`0`, `''`, `null`,
`NaN`, `false`, absent) is coerced to `null` during sanitisation, so the
whole request behaves exactly as if `track_number` were omitted — same
response, same database — and any document it persists stores
`track_number: null` (in particular the range rule and the per-album
track-number uniqueness check are skipped). -/
theorem track_number_falsy_omitted (isUrl : String → Bool) (now : Int) (freshId : String)
    (db : Db) (body : SongObj) (h : truthy body.track_number = false) :
    createSong isUrl now freshId db body
      = createSong isUrl now freshId db { body with track_number := .undef } ∧
    (∀ doc db2, createSong isUrl now freshId db body = (.created doc, db2) →
      doc.data.track_number = .vNull) := by
  have hn : (sanitizeSong body).track_number = .vNull := by
    simp [sanitizeSong, h]
  have hs : sanitizeSong body = sanitizeSong { body with track_number := .undef } := by
    have hu : truthy JSVal.undef = false := rfl
    simp [sanitizeSong, h, hu]
  constructor
  · simp only [createSong, hs]
  · intro doc db2 heq
    simp only [createSong, hn] at heq
    split at heq
    · simp at heq
    · split at heq
      · simp at heq
      · split at heq
        · simp at heq
        · split at heq
          · simp at heq
          · simp only [truthy, reduceIte] at heq
            obtain ⟨h1, -⟩ := Prod.mk.injEq .. ▸ heq
            cases h1
            exact hn

/-- C10 witness: with `track_number: 0` the create succeeds on the fixture
database and equals the omitted-field request verbatim. -/
theorem track_number_falsy_omitted_witness :
    truthy (JSVal.vInt 0) = false ∧
    createSong urlOracle 7 idC guardDb songZeroBody
      = createSong urlOracle 7 idC guardDb { songZeroBody with track_number := .undef } ∧
    (createSong urlOracle 7 idC guardDb songZeroBody).1.status = 201 := by
  have h := track_number_falsy_omitted urlOracle 7 idC guardDb songZeroBody (by decide)
  exact ⟨by decide, h.1, by rfl⟩

end MusicApi
